import Mathlib

/-!
Verification of the qur compiler front end (lexer in `src/utils/lexer.cpp`,
recursive-descent parser in `src/utils/ast.cpp`) against its natural-language
specification.  The C++ sources are embedded shallowly: the lexer becomes a
total function from lines of text to a token list, and every parser method
becomes a function from a token list and a cursor position to an
`Except (message × position) (result × new position)` value: C++ exceptions are
the `Except.error` case, and — because the C++ cursor `current_` is a member
that persists past a `throw` — every error carries the cursor position at the
throw site, which `AST::build`'s catch block then synchronizes from.  The C++
recursion is bounded by an explicit fuel parameter (`Nat`), decremented on
every call; running out of fuel yields the distinguished message `fuelOut`,
which no source-level path produces.
-/

namespace Qur

/-- Token kinds, from `enum class TokenType` in `src/utils/lexer.h`.  The
constructors from `UNKNOWN` through `INVERT` are exactly the enumerators
declared there (in declaration order; enumerators that are commented out in
the header are omitted from that range).  The final eight constructors
(`IMPORT`, the five compound-assignment kinds, `INCREMENT`, `DECREMENT`) are
referenced by name in `src/utils/ast.cpp` (`AST::parseDeclaration`,
`AST::parseAssignment`, `AST::parseUnary`, `AST::parseCall`) but are NOT
declared in `lexer.h` — `IMPORT` appears there only inside a comment and the
others nowhere — so the two files do not compile together as committed.  They
are included here so that the parser of `ast.cpp` can be embedded exactly as
written; the lexer never produces any of them. -/
inductive TokenType where
  | UNKNOWN
  | RETURN
  | LBRACE
  | RBRACE
  | LPAREN
  | RPAREN
  | LBRACK
  | RBRACK
  | SEMICOLON
  | COLON
  | COMMA
  | DOT
  | IDENTIFIER
  | IF
  | ELSEIF
  | ELSE
  | FOR
  | WHILE
  | CONTINUE
  | BREAK
  | FUNCTION
  | LITERAL
  | VOID
  | INT
  | DOUBLE
  | BOOLEAN
  | CHAR
  | STRING
  | ASSIGN
  | ADD
  | SUB
  | MUL
  | DIV
  | MOD
  | LESSTHAN
  | MORETHAN
  | LESSTHANEQUAL
  | MORETHANEQUAL
  | EQUAL
  | NOTEQUAL
  | NOT
  | AND
  | OR
  | INVERT
  | IMPORT
  | ASSIGN_ADD
  | ASSIGN_SUB
  | ASSIGN_MUL
  | ASSIGN_DIV
  | ASSIGN_MOD
  | INCREMENT
  | DECREMENT
deriving DecidableEq, Repr

/-- The token record `struct Token` of `src/utils/lexer.h`: kind, exact
lexeme (the field is spelled `lexme` in the source), and 0-based line and
column as C++ `int` (hence `Int` here: the parser's synthetic end-of-stream
token uses -1). -/
structure Token where
  type : TokenType
  lexme : String
  line : Int
  column : Int
deriving DecidableEq, Repr

/-- `StringToToken` from `src/utils/lexer.cpp`: maps a spelling to its token
kind, defaulting to `UNKNOWN`. -/
def StringToToken (str : String) : TokenType :=
  if str = "return" then .RETURN
  else if str = "\x7b" then .LBRACE
  else if str = "\x7d" then .RBRACE
  else if str = "(" then .LPAREN
  else if str = ")" then .RPAREN
  else if str = "[" then .LBRACK
  else if str = "]" then .RBRACK
  else if str = ";" then .SEMICOLON
  else if str = ":" then .COLON
  else if str = "," then .COMMA
  else if str = "." then .DOT
  else if str = "variable" then .IDENTIFIER
  else if str = "if" then .IF
  else if str = "elif" then .ELSEIF
  else if str = "else" then .ELSE
  else if str = "for" then .FOR
  else if str = "while" then .WHILE
  else if str = "continue" then .CONTINUE
  else if str = "break" then .BREAK
  else if str = "fn" then .FUNCTION
  else if str = "literal" then .LITERAL
  else if str = "void" then .VOID
  else if str = "int" then .INT
  else if str = "double" then .DOUBLE
  else if str = "boolean" then .BOOLEAN
  else if str = "char" then .CHAR
  else if str = "string" then .STRING
  else if str = "=" then .ASSIGN
  else if str = "+" then .ADD
  else if str = "-" then .SUB
  else if str = "*" then .MUL
  else if str = "/" then .DIV
  else if str = "%" then .MOD
  else if str = "<" then .LESSTHAN
  else if str = ">" then .MORETHAN
  else if str = "<=" then .LESSTHANEQUAL
  else if str = ">=" then .MORETHANEQUAL
  else if str = "==" then .EQUAL
  else if str = "!=" then .NOTEQUAL
  else if str = "!" then .NOT
  else if str = "&" then .AND
  else if str = "|" then .OR
  else if str = "~" then .INVERT
  else .UNKNOWN

/-- Models `line.compare(i, kw.size(), kw) == 0` in the lexer's keyword
tests: the substring of the line that starts at the current position equals
`kw` in full (so at least `kw.size()` characters must remain).  `rest` is the
suffix of the line from the current position. -/
def compareAt (rest : List Char) (kw : String) : Bool :=
  kw.toList.isPrefixOf rest

/-- The character the lexer sees at `line[i + 1]`: C++ `std::string`
subscripting yields the NUL character at the one-past-the-end position, so an
empty remainder reads as `'\x00'`. -/
def nextChar (cs : List Char) : Char :=
  cs.headD (Char.ofNat 0)

/-- The per-line scanning loop of the constructor `lexer::lexer`
(`src/utils/lexer.cpp`, lines 111-303), one recursive step per iteration of
the `for` loop over the line.  `rest` is the line suffix from index `i`, and
`i` is the current column.  `unLexed` is the accumulator variable of the same
name in the source: characters handled by no dispatch rule (and the single
characters of words that match no keyword) are appended to it, and the source
never reads it back — it produces no token.  The fuel parameter only bounds
the recursion; it is chosen `≥ rest.length` by the caller, so the `0` case is
never reached.  A `//` comment sets the source's `comment` flag, which breaks
out of the loop: the remainder of the line produces no tokens. -/
def lexLineGo (row : Int) : Nat → List Char → Nat → String → List Token
  | 0, _, _, _ => []
  | _ + 1, [], _, _ => []
  | fuel + 1, c :: cs, i, unLexed =>
    if c = 'r' then
      if compareAt (c :: cs) "return" then
        ⟨.RETURN, "return", row, (i : Int)⟩ :: lexLineGo row fuel (cs.drop 5) (i + 6) unLexed
      else lexLineGo row fuel cs (i + 1) (unLexed.push c)
    else if c = 'i' then
      if compareAt (c :: cs) "if" then
        ⟨.IF, "if", row, (i : Int)⟩ :: lexLineGo row fuel (cs.drop 1) (i + 2) unLexed
      else if compareAt (c :: cs) "int" then
        ⟨.INT, "int", row, (i : Int)⟩ :: lexLineGo row fuel (cs.drop 2) (i + 3) unLexed
      else lexLineGo row fuel cs (i + 1) (unLexed.push c)
    else if c = 'e' then
      if compareAt (c :: cs) "elif" then
        ⟨.ELSEIF, "elif", row, (i : Int)⟩ :: lexLineGo row fuel (cs.drop 3) (i + 4) unLexed
      else if compareAt (c :: cs) "else" then
        ⟨.ELSE, "else", row, (i : Int)⟩ :: lexLineGo row fuel (cs.drop 3) (i + 4) unLexed
      else lexLineGo row fuel cs (i + 1) (unLexed.push c)
    else if c = 'f' then
      if compareAt (c :: cs) "for" then
        ⟨.FOR, "for", row, (i : Int)⟩ :: lexLineGo row fuel (cs.drop 2) (i + 3) unLexed
      else if compareAt (c :: cs) "fn" then
        ⟨.FUNCTION, "fn", row, (i : Int)⟩ :: lexLineGo row fuel (cs.drop 1) (i + 2) unLexed
      else lexLineGo row fuel cs (i + 1) (unLexed.push c)
    else if c = 'w' then
      if compareAt (c :: cs) "while" then
        ⟨.WHILE, "while", row, (i : Int)⟩ :: lexLineGo row fuel (cs.drop 4) (i + 5) unLexed
      else lexLineGo row fuel cs (i + 1) (unLexed.push c)
    else if c = 'c' then
      if compareAt (c :: cs) "continue" then
        ⟨.CONTINUE, "continue", row, (i : Int)⟩ :: lexLineGo row fuel (cs.drop 7) (i + 8) unLexed
      else if compareAt (c :: cs) "char" then
        -- the source's `char` branch has an empty body: no token, no skip
        lexLineGo row fuel cs (i + 1) unLexed
      else lexLineGo row fuel cs (i + 1) (unLexed.push c)
    else if c = 'b' then
      if compareAt (c :: cs) "break" then
        ⟨.BREAK, "break", row, (i : Int)⟩ :: lexLineGo row fuel (cs.drop 4) (i + 5) unLexed
      else if compareAt (c :: cs) "boolean" then
        ⟨.BOOLEAN, "boolean", row, (i : Int)⟩ :: lexLineGo row fuel (cs.drop 6) (i + 7) unLexed
      else lexLineGo row fuel cs (i + 1) (unLexed.push c)
    else if c = 'd' then
      if compareAt (c :: cs) "double" then
        ⟨.DOUBLE, "double", row, (i : Int)⟩ :: lexLineGo row fuel (cs.drop 5) (i + 6) unLexed
      else lexLineGo row fuel cs (i + 1) (unLexed.push c)
    else if c = 's' then
      if compareAt (c :: cs) "string" then
        ⟨.STRING, "string", row, (i : Int)⟩ :: lexLineGo row fuel (cs.drop 5) (i + 6) unLexed
      else lexLineGo row fuel cs (i + 1) (unLexed.push c)
    else if c = ' ' ∨ c = '\t' ∨ c = '\n' ∨ c = '\x0d' then
      lexLineGo row fuel cs (i + 1) unLexed
    else if c ∈ ['{', '}', '(', ')', '[', ']', ';', ',', '.', '+', '*', '%', '&', '|', '~'] then
      ⟨StringToToken (String.singleton c), String.singleton c, row, (i : Int)⟩ ::
        lexLineGo row fuel cs (i + 1) unLexed
    else if c = '=' then
      if nextChar cs = '=' then
        ⟨.EQUAL, "==", row, (i : Int)⟩ :: lexLineGo row fuel (cs.drop 1) (i + 2) unLexed
      else
        ⟨.ASSIGN, "=", row, (i : Int)⟩ :: lexLineGo row fuel cs (i + 1) unLexed
    else if c = '-' then
      ⟨.SUB, "-", row, (i : Int)⟩ :: lexLineGo row fuel cs (i + 1) unLexed
    else if c = '/' then
      if nextChar cs = '/' then
        []
      else
        ⟨.DIV, "/", row, (i : Int)⟩ :: lexLineGo row fuel cs (i + 1) unLexed
    else if c = '<' then
      if nextChar cs = '=' then
        ⟨.LESSTHANEQUAL, "<=", row, (i : Int)⟩ :: lexLineGo row fuel (cs.drop 1) (i + 2) unLexed
      else
        ⟨.LESSTHAN, "<", row, (i : Int)⟩ :: lexLineGo row fuel cs (i + 1) unLexed
    else if c = '>' then
      if nextChar cs = '=' then
        ⟨.MORETHANEQUAL, ">=", row, (i : Int)⟩ :: lexLineGo row fuel (cs.drop 1) (i + 2) unLexed
      else
        ⟨.MORETHAN, ">", row, (i : Int)⟩ :: lexLineGo row fuel cs (i + 1) unLexed
    else if c = '!' then
      if nextChar cs = '=' then
        ⟨.NOTEQUAL, "!=", row, (i : Int)⟩ :: lexLineGo row fuel (cs.drop 1) (i + 2) unLexed
      else
        ⟨.NOT, "!", row, (i : Int)⟩ :: lexLineGo row fuel cs (i + 1) unLexed
    else
      lexLineGo row fuel cs (i + 1) (unLexed.push c)

/-- Tokens produced for one source line (row `row`) by `lexer::lexer`. -/
def lexLine (row : Int) (line : String) : List Token :=
  lexLineGo row line.length line.toList 0 ""

/-- The `while (std::getline(...))` loop of `lexer::lexer`: lines are lexed
in order with the row counter starting at 0 and incremented per line. -/
def lexLinesGo : Int → List String → List Token
  | _, [] => []
  | row, l :: ls => lexLine row l ++ lexLinesGo (row + 1) ls

/-- The complete token sequence `tokens_` built by the constructor
`lexer::lexer` from the input file's lines.  Apart from the file-open check
(`IOError`, outside this model), the constructor has no failure path: it is a
total function of the text. -/
def lexerTokens (lines : List String) : List Token :=
  lexLinesGo 0 lines

/-- `enum class astVarType` from `src/utils/ast.h`. -/
inductive astVarType where
  | VOID
  | INT
  | DOUBLE
  | STRING
  | CHAR
  | BOOLEAN
  | INFERRED
deriving DecidableEq, Repr

/-- The AST node hierarchy of `src/utils/ast.h`, flattened into one inductive
type with one constructor per concrete C++ node class (the C++ code
discriminates variants through the `astNodeType` tag and `dynamic_cast`; here
the constructor plays that role).  Child pointers that the parser can leave
null (`ifNode::elseBody`, the three `forNode` clauses, `returnNode::value`,
`varDeclNode::initializer`) are `Option`s, and the child vectors of `bodyNode`
and `programNode` are lists of `Option astNode` because a C++
`std::vector<std::unique_ptr<astNode>>` can in principle hold null entries —
whether it ever does is exactly claim C10.  `doubleLiteralNode` keeps the raw
lexeme instead of the C++ `double` produced by `std::stod`; no claim depends
on the floating-point value. -/
inductive astNode where
  | stringLiteralNode (value : String)
  | intLiteralNode (value : Int)
  | doubleLiteralNode (raw : String)
  | charLiteralNode (value : Char)
  | booleanLiteralNode (value : Bool)
  | variableNode (name : String) (varType : astVarType)
  | unaryOpNode (op : String) (operand : astNode)
  | binaryOpNode (op : String) (left : astNode) (right : astNode)
  | assignOpNode (targetName : String) (value : astNode) (op : String)
  | fnCallNode (name : String) (args : List astNode)
  | importNode (path : String)
  | ifNode (condition : astNode) (thenBody : astNode) (elseBody : Option astNode)
  | forNode (init : Option astNode) (condition : Option astNode)
      (increment : Option astNode) (body : astNode)
  | whileNode (condition : astNode) (body : astNode)
  | returnNode (value : Option astNode)
  | breakNode
  | continueNode
  | varDeclNode (varType : astVarType) (name : String) (initializer : Option astNode)
  | functionNode (returnType : astVarType) (name : String)
      (params : List (astVarType × String)) (body : astNode)
  | bodyNode (statements : List (Option astNode))
  | programNode (declarations : List (Option astNode))
deriving Repr

/-- The check `expr->type == astNodeType::VARIABLE` used by
`AST::parseAssignment` and `AST::parseCall`. -/
def isVariableNode : astNode → Bool
  | .variableNode _ _ => true
  | _ => false

/-- `AST::tokenTypeToVarType` from `src/utils/ast.cpp`. -/
def tokenTypeToVarType (type : TokenType) : astVarType :=
  match type with
  | .INT => .INT
  | .DOUBLE => .DOUBLE
  | .CHAR => .CHAR
  | .BOOLEAN => .BOOLEAN
  | .STRING => .STRING
  | .VOID => .VOID
  | _ => .INFERRED

/-- The synthetic end-of-stream token returned by `AST::peek` past the end of
the token sequence (`{TokenType::UNKNOWN, "", -1, -1}`).  `AST::previous`
uses a second static dummy with identical fields for the empty sequence. -/
def eofToken : Token :=
  ⟨.UNKNOWN, "", -1, -1⟩

/-- `AST::isAtEnd`: `current_ >= tokens_.size()`. -/
def isAtEnd (ts : List Token) (cur : Nat) : Bool :=
  decide (ts.length ≤ cur)

/-- `AST::peek`: the token at the cursor, or the synthetic end-of-stream
token at or past the end. -/
def peek (ts : List Token) (cur : Nat) : Token :=
  if isAtEnd ts cur then eofToken else ts.getD cur eofToken

/-- `AST::previous`: the token before the cursor; at position 0 it returns
the first token, or the dummy token on an empty sequence. -/
def previous (ts : List Token) (cur : Nat) : Token :=
  if cur = 0 then
    match ts with
    | [] => eofToken
    | t :: _ => t
  else ts.getD (cur - 1) eofToken

/-- `AST::advance`: increments the cursor unless at the end, then returns
`previous()`.  The mutated cursor is returned alongside. -/
def advance (ts : List Token) (cur : Nat) : Token × Nat :=
  if isAtEnd ts cur then (previous ts cur, cur)
  else (previous ts (cur + 1), cur + 1)

/-- `AST::check`: `false` at the end, otherwise whether the peeked token has
the given kind. -/
def check (ts : List Token) (cur : Nat) (type : TokenType) : Bool :=
  if isAtEnd ts cur then false
  else decide ((peek ts cur).type = type)

/-- `AST::match(TokenType)`: on a kind match, advances and reports `true`;
the (possibly moved) cursor is returned alongside. -/
def matchT (ts : List Token) (cur : Nat) (type : TokenType) : Bool × Nat :=
  if check ts cur type then (true, cur + 1) else (false, cur)

/-- `AST::match(std::initializer_list<TokenType>)`: tries each kind in order,
advancing past the first that matches. -/
def matchL (ts : List Token) (cur : Nat) : List TokenType → Bool × Nat
  | [] => (false, cur)
  | type :: rest =>
    if check ts cur type then (true, cur + 1) else matchL ts cur rest

/-- `AST::consume`: advance past a token of the required kind, or throw an
`astError` whose message appends the offending token's position (when its
line is non-negative) and lexeme. -/
def consume (ts : List Token) (cur : Nat) (type : TokenType) (errorMsg : String) :
    Except (String × Nat) (Token × Nat) :=
  if check ts cur type then .ok (advance ts cur)
  else
    let current := peek ts cur
    let fullMsg :=
      errorMsg ++
        (if current.line ≥ 0 then
          " at line " ++ toString current.line ++ ", column " ++ toString current.column
        else "") ++
        " (found '" ++ current.lexme ++ "')"
    .error (fullMsg, cur)

/-- Error message marking fuel exhaustion in the embedding.  No translated
source path produces it; theorems about arbitrary inputs carry it as an
explicit extra case. -/
def fuelOut : String :=
  "model: recursion fuel exhausted"

/-- The digit-accumulation loop of `std::stoi`: consume decimal digits from
the front, stopping at the first non-digit. -/
def stoiDigitsGo : List Char → Int → Int
  | [], acc => acc
  | c :: cs, acc =>
    if c.isDigit then stoiDigitsGo cs (acc * 10 + ((c.toNat : Int) - 48)) else acc

/-- Models `std::stoi` as used by `AST::parsePrimary` on a numeric lexeme:
an optional leading minus sign followed by decimal digits.  On text
`std::stoi` would reject, the source throws an uncaught
`std::invalid_argument`; that path is outside every claim and yields 0
here. -/
def stoi (s : String) : Int :=
  match s.toList with
  | '-' :: rest => - stoiDigitsGo rest 0
  | rest => stoiDigitsGo rest 0

/-- The character-literal decoding of `AST::parsePrimary`: the first lexeme
character, or the decoded escape when the lexeme starts with a backslash and
has length at least 2 (unknown escapes fall back to the escaped character);
the empty lexeme decodes to NUL. -/
def decodeCharLexeme (charStr : String) : Char :=
  let value := charStr.toList.headD (Char.ofNat 0)
  if charStr.length ≥ 2 ∧ charStr.toList.headD (Char.ofNat 0) = '\\' then
    match charStr.toList.drop 1 with
    | [] => value
    | c2 :: _ =>
      if c2 = 'n' then '\n'
      else if c2 = 't' then '\t'
      else if c2 = 'r' then '\x0d'
      else if c2 = '0' then Char.ofNat 0
      else if c2 = '\\' then '\\'
      else if c2 = Char.ofNat 39 then Char.ofNat 39
      else c2
  else value

/-- The token-accumulation loop of the `import` branch of
`AST::parseDeclaration`: concatenates lexemes until a `;` or the end. -/
def importPathGo : Nat → List Token → Nat → String → String × Nat
  | 0, _, cur, path => (path, cur)
  | fuel + 1, ts, cur, path =>
    if !check ts cur .SEMICOLON && !isAtEnd ts cur then
      let (t, cur') := advance ts cur
      importPathGo fuel ts cur' (path ++ t.lexme)
    else (path, cur)

/-- The parameter-list `do … while (match(COMMA))` loop of
`AST::parseFunction`: a typed, named parameter each round. -/
def paramsGo : Nat → List Token → Nat → List (astVarType × String) →
    Except (String × Nat) (List (astVarType × String) × Nat)
  | 0, _, cur, _ => .error (fuelOut, cur)
  | fuel + 1, ts, cur, acc =>
    let (m, cur1) := matchL ts cur [.INT, .DOUBLE, .CHAR, .BOOLEAN, .STRING]
    if m then
      let paramType := tokenTypeToVarType (previous ts cur1).type
      match consume ts cur1 .IDENTIFIER "Expected parameter name" with
      | .error e => .error e
      | .ok (paramName, cur2) =>
        let acc' := acc ++ [(paramType, paramName.lexme)]
        let (mc, cur3) := matchT ts cur2 .COMMA
        if mc then paramsGo fuel ts cur3 acc' else .ok (acc', cur3)
    else .error ("Expected parameter type", cur1)

/-- The postfix `while (match({INCREMENT, DECREMENT}))` loop at the end of
`AST::parseCall`. -/
def postfixGo : Nat → List Token → Nat → astNode → astNode × Nat
  | 0, _, cur, e => (e, cur)
  | fuel + 1, ts, cur, e =>
    let (m, cur1) := matchL ts cur [.INCREMENT, .DECREMENT]
    if m then
      postfixGo fuel ts cur1 (.unaryOpNode ((previous ts cur1).lexme ++ "_postfix") e)
    else (e, cur)

/-- The synchronization loop in the `catch` block of `AST::build`: discard
tokens until a `;` (consumed) or the start of `}` / `fn` / `if` / `while` /
`for` / `return` (left in place), or the end. -/
def sync : Nat → List Token → Nat → Nat
  | 0, _, cur => cur
  | fuel + 1, ts, cur =>
    if isAtEnd ts cur then cur
    else
      let t := peek ts cur
      if t.type = .SEMICOLON then cur + 1
      else if t.type = .RBRACE ∨ t.type = .FUNCTION ∨ t.type = .IF ∨
          t.type = .WHILE ∨ t.type = .FOR ∨ t.type = .RETURN then cur
      else sync fuel ts (cur + 1)

set_option maxHeartbeats 2000000 in
mutual

/-- `AST::parseDeclaration` (`src/utils/ast.cpp`, lines 138-170): a stray
`}`/`;` yields a null node (`none`); otherwise a function after `fn`, an
import, a typed variable declaration, or — falling through — a statement. -/
def parseDeclaration : Nat → List Token → Nat → Except (String × Nat) (Option astNode × Nat)
  | 0, _, cur => .error (fuelOut, cur)
  | fuel + 1, ts, cur =>
    if check ts cur .RBRACE || check ts cur .SEMICOLON then
      let (_, c1) := advance ts cur
      .ok (none, c1)
    else
      let (mFn, c1) := matchT ts cur .FUNCTION
      if mFn then
        match parseFunction fuel ts c1 with
        | .error e => .error e
        | .ok (f, c2) => .ok (some f, c2)
      else
        let (mImp, c2) := matchT ts cur .IMPORT
        if mImp then
          let (path, c3) := importPathGo fuel ts c2 ""
          match consume ts c3 .SEMICOLON "Expected ';' after import" with
          | .error e => .error e
          | .ok (_, c4) => .ok (some (.importNode path), c4)
        else if check ts cur .INT || check ts cur .DOUBLE || check ts cur .CHAR ||
            check ts cur .BOOLEAN || check ts cur .STRING then
          let (_, c3) := advance ts cur
          match parseVarDeclaration fuel ts c3 with
          | .error e => .error e
          | .ok (v, c4) => .ok (some v, c4)
        else
          match parseStatement fuel ts cur with
          | .error e => .error e
          | .ok (s, c3) => .ok (some s, c3)
  termination_by structural f _ts _cur => f

/-- `AST::parseFunction`: optional return type (default `VOID`), name,
parenthesised parameter list, brace-delimited body. -/
def parseFunction : Nat → List Token → Nat → Except (String × Nat) (astNode × Nat)
  | 0, _, cur => .error (fuelOut, cur)
  | fuel + 1, ts, cur =>
    let (mRT, c1) := matchL ts cur [.INT, .DOUBLE, .CHAR, .BOOLEAN, .STRING, .VOID]
    let returnType := if mRT then tokenTypeToVarType (previous ts c1).type else astVarType.VOID
    match consume ts c1 .IDENTIFIER "Expected function name" with
    | .error e => .error e
    | .ok (nameToken, c2) =>
      match consume ts c2 .LPAREN "Expected '(' after function name" with
      | .error e => .error e
      | .ok (_, c3) =>
        match (if !check ts c3 .RPAREN then paramsGo fuel ts c3 [] else .ok ([], c3)) with
        | .error e => .error e
        | .ok (params, c4) =>
          match consume ts c4 .RPAREN "Expected ')' after parameters" with
          | .error e => .error e
          | .ok (_, c5) =>
            match parseBody fuel ts c5 with
            | .error e => .error e
            | .ok (body, c6) =>
              .ok (.functionNode returnType nameToken.lexme params body, c6)
  termination_by structural f _ts _cur => f

/-- `AST::parseVarDeclaration`: called with the cursor just past the type
keyword (read back through `previous()`); name, optional `= initializer`,
terminating `;`. -/
def parseVarDeclaration : Nat → List Token → Nat → Except (String × Nat) (astNode × Nat)
  | 0, _, cur => .error (fuelOut, cur)
  | fuel + 1, ts, cur =>
    let typeToken := previous ts cur
    let varType := tokenTypeToVarType typeToken.type
    match consume ts cur .IDENTIFIER "Expected variable name" with
    | .error e => .error e
    | .ok (nameToken, c1) =>
      let (mAs, c2) := matchT ts c1 .ASSIGN
      if mAs then
        match parseExpression fuel ts c2 with
        | .error e => .error e
        | .ok (ini, c3) =>
          match consume ts c3 .SEMICOLON "Expected ';' after variable declaration" with
          | .error e => .error e
          | .ok (_, c4) => .ok (.varDeclNode varType nameToken.lexme (some ini), c4)
      else
        match consume ts c2 .SEMICOLON "Expected ';' after variable declaration" with
        | .error e => .error e
        | .ok (_, c4) => .ok (.varDeclNode varType nameToken.lexme none, c4)

/-- `AST::parseStatement`: first-token dispatch to the statement parsers, a
brace-delimited body, or an expression statement ended by `;`. -/
def parseStatement : Nat → List Token → Nat → Except (String × Nat) (astNode × Nat)
  | 0, _, cur => .error (fuelOut, cur)
  | fuel + 1, ts, cur =>
    let (mIf, c1) := matchT ts cur .IF
    if mIf then parseIfStatement fuel ts c1
    else
      let (mWh, c2) := matchT ts cur .WHILE
      if mWh then parseWhileStatement fuel ts c2
      else
        let (mFor, c3) := matchT ts cur .FOR
        if mFor then parseForStatement fuel ts c3
        else
          let (mRet, c4) := matchT ts cur .RETURN
          if mRet then parseReturnStatement fuel ts c4
          else
            let (mBr, c5) := matchT ts cur .BREAK
            if mBr then
              match consume ts c5 .SEMICOLON "Expected ';' after break" with
              | .error e => .error e
              | .ok (_, c6) => .ok (.breakNode, c6)
            else
              let (mCo, c7) := matchT ts cur .CONTINUE
              if mCo then
                match consume ts c7 .SEMICOLON "Expected ';' after continue" with
                | .error e => .error e
                | .ok (_, c8) => .ok (.continueNode, c8)
              else if check ts cur .LBRACE then
                parseBody fuel ts cur
              else
                match parseExpression fuel ts cur with
                | .error e => .error e
                | .ok (expr, c9) =>
                  match consume ts c9 .SEMICOLON "Expected ';' after expression" with
                  | .error e => .error e
                  | .ok (_, c10) => .ok (expr, c10)
  termination_by structural f _ts _cur => f

/-- `AST::parseIfStatement`: `( condition )`, then-statement, optional
`else` statement; no trailing semicolon is consumed. -/
def parseIfStatement : Nat → List Token → Nat → Except (String × Nat) (astNode × Nat)
  | 0, _, cur => .error (fuelOut, cur)
  | fuel + 1, ts, cur =>
    match consume ts cur .LPAREN "Expected '(' after 'if'" with
    | .error e => .error e
    | .ok (_, c1) =>
      match parseExpression fuel ts c1 with
      | .error e => .error e
      | .ok (condition, c2) =>
        match consume ts c2 .RPAREN "Expected ')' after condition" with
        | .error e => .error e
        | .ok (_, c3) =>
          match parseStatement fuel ts c3 with
          | .error e => .error e
          | .ok (thenBranch, c4) =>
            let (mElse, c5) := matchT ts c4 .ELSE
            if mElse then
              match parseStatement fuel ts c5 with
              | .error e => .error e
              | .ok (elseBranch, c6) =>
                .ok (.ifNode condition thenBranch (some elseBranch), c6)
            else .ok (.ifNode condition thenBranch none, c5)
  termination_by structural f _ts _cur => f

/-- `AST::parseWhileStatement`: `( condition )`, brace body, then a REQUIRED
trailing `;` after the closing brace. -/
def parseWhileStatement : Nat → List Token → Nat → Except (String × Nat) (astNode × Nat)
  | 0, _, cur => .error (fuelOut, cur)
  | fuel + 1, ts, cur =>
    match consume ts cur .LPAREN "Expected '(' after 'while'" with
    | .error e => .error e
    | .ok (_, c1) =>
      match parseExpression fuel ts c1 with
      | .error e => .error e
      | .ok (condition, c2) =>
        match consume ts c2 .RPAREN "Expected ')' after condition" with
        | .error e => .error e
        | .ok (_, c3) =>
          match parseBody fuel ts c3 with
          | .error e => .error e
          | .ok (body, c4) =>
            match consume ts c4 .SEMICOLON "Expected ';' after while body" with
            | .error e => .error e
            | .ok (_, c5) => .ok (.whileNode condition body, c5)
  termination_by structural f _ts _cur => f

/-- `AST::parseForStatement`: `( init? ; cond? ; incr? )`, brace body, then a
REQUIRED trailing `;` after the closing brace.  The three clause parses are
sequenced here through local continuations (`afterInit`, `afterCond`,
`finishFor`) standing for the straight-line remainder of the C++ function. -/
def parseForStatement : Nat → List Token → Nat → Except (String × Nat) (astNode × Nat)
  | 0, _, cur => .error (fuelOut, cur)
  | fuel + 1, ts, cur =>
    match consume ts cur .LPAREN "Expected '(' after 'for'" with
    | .error e => .error e
    | .ok (_, c1) =>
      let finishFor : Option astNode → Option astNode → Option astNode → Nat →
          Except (String × Nat) (astNode × Nat) := fun initializer condition increment cA =>
        match consume ts cA .RPAREN "Expected ')' after for clauses" with
        | .error e => .error e
        | .ok (_, cB) =>
          match parseBody fuel ts cB with
          | .error e => .error e
          | .ok (body, cC) =>
            match consume ts cC .SEMICOLON "Expected ';' after for body" with
            | .error e => .error e
            | .ok (_, cD) => .ok (.forNode initializer condition increment body, cD)
      let afterCond : Option astNode → Option astNode → Nat →
          Except (String × Nat) (astNode × Nat) := fun initializer condition cA =>
        match consume ts cA .SEMICOLON "Expected ';' after for condition" with
        | .error e => .error e
        | .ok (_, cB) =>
          if !check ts cB .RPAREN then
            match parseExpression fuel ts cB with
            | .error e => .error e
            | .ok (increment, cC) => finishFor initializer condition (some increment) cC
          else finishFor initializer condition none cB
      let afterInit : Option astNode → Nat → Except (String × Nat) (astNode × Nat) :=
        fun initializer cA =>
          if !check ts cA .SEMICOLON then
            match parseExpression fuel ts cA with
            | .error e => .error e
            | .ok (condition, cB) => afterCond initializer (some condition) cB
          else afterCond initializer none cA
      let (mSemi, c2) := matchT ts c1 .SEMICOLON
      if mSemi then afterInit none c2
      else
        let (mType, c3) := matchL ts c1 [.INT, .DOUBLE, .CHAR, .BOOLEAN, .STRING]
        if mType then
          match parseVarDeclaration fuel ts c3 with
          | .error e => .error e
          | .ok (vd, c4) => afterInit (some vd) c4
        else
          match parseExpression fuel ts c1 with
          | .error e => .error e
          | .ok (expr, c4) =>
            match consume ts c4 .SEMICOLON "Expected ';' after for initializer" with
            | .error e => .error e
            | .ok (_, c5) => afterInit (some expr) c5
  termination_by structural f _ts _cur => f

/-- `AST::parseReturnStatement`: optional value expression, terminating
`;`. -/
def parseReturnStatement : Nat → List Token → Nat → Except (String × Nat) (astNode × Nat)
  | 0, _, cur => .error (fuelOut, cur)
  | fuel + 1, ts, cur =>
    if !check ts cur .SEMICOLON then
      match parseExpression fuel ts cur with
      | .error e => .error e
      | .ok (value, c1) =>
        match consume ts c1 .SEMICOLON "Expected ';' after return statement" with
        | .error e => .error e
        | .ok (_, c2) => .ok (.returnNode (some value), c2)
    else
      match consume ts cur .SEMICOLON "Expected ';' after return statement" with
      | .error e => .error e
      | .ok (_, c2) => .ok (.returnNode none, c2)

/-- `AST::parseBody`: `{`, statements until `}` (stray `;` skipped, and only
non-null `parseDeclaration` results pushed — see `bodyGo`), `}`. -/
def parseBody : Nat → List Token → Nat → Except (String × Nat) (astNode × Nat)
  | 0, _, cur => .error (fuelOut, cur)
  | fuel + 1, ts, cur =>
    match consume ts cur .LBRACE "Expected '\x7b'" with
    | .error e => .error e
    | .ok (_, c1) =>
      match bodyGo fuel ts c1 [] with
      | .error e => .error e
      | .ok (statements, c2) =>
        match consume ts c2 .RBRACE "Expected '\x7d'" with
        | .error e => .error e
        | .ok (_, c3) => .ok (.bodyNode statements, c3)
  termination_by structural f _ts _cur => f

/-- The statement loop of `AST::parseBody`: while not at `}` or the end,
skip `;` tokens, otherwise parse a declaration and push it only when
non-null. -/
def bodyGo : Nat → List Token → Nat → List (Option astNode) →
    Except (String × Nat) (List (Option astNode) × Nat)
  | 0, _, cur, _ => .error (fuelOut, cur)
  | fuel + 1, ts, cur, acc =>
    if !check ts cur .RBRACE && !isAtEnd ts cur then
      let (m, c1) := matchT ts cur .SEMICOLON
      if m then bodyGo fuel ts c1 acc
      else
        match parseDeclaration fuel ts cur with
        | .error e => .error e
        | .ok (stmtOpt, c2) =>
          match stmtOpt with
          | some stmt => bodyGo fuel ts c2 (acc ++ [some stmt])
          | none => bodyGo fuel ts c2 acc
    else .ok (acc, cur)
  termination_by structural f _ts _cur _acc => f

/-- `AST::parseExpression`: delegates to the assignment level. -/
def parseExpression : Nat → List Token → Nat → Except (String × Nat) (astNode × Nat)
  | 0, _, cur => .error (fuelOut, cur)
  | fuel + 1, ts, cur => parseAssignment fuel ts cur
  termination_by structural f _ts _cur => f

/-- `AST::parseAssignment` (`src/utils/ast.cpp`, lines 371-387):
right-associative — the value recurses into `parseAssignment` itself; the
already-parsed left-hand side must be a `variableNode`, else `astError`
`"Invalid assignment target"` is thrown (after the value is parsed). -/
def parseAssignment : Nat → List Token → Nat → Except (String × Nat) (astNode × Nat)
  | 0, _, cur => .error (fuelOut, cur)
  | fuel + 1, ts, cur =>
    match parseLogicalOr fuel ts cur with
    | .error e => .error e
    | .ok (expr, c1) =>
      let (m, c2) := matchL ts c1
        [.ASSIGN, .ASSIGN_ADD, .ASSIGN_SUB, .ASSIGN_MUL, .ASSIGN_DIV, .ASSIGN_MOD]
      if m then
        let op := (previous ts c2).lexme
        match parseAssignment fuel ts c2 with
        | .error e => .error e
        | .ok (value, c3) =>
          match expr with
          | .variableNode name _ => .ok (.assignOpNode name value op, c3)
          | _ => .error ("Invalid assignment target", c3)
      else .ok (expr, c1)
  termination_by structural f _ts _cur => f

/-- `AST::parseLogicalOr`: left fold over `|`. -/
def parseLogicalOr : Nat → List Token → Nat → Except (String × Nat) (astNode × Nat)
  | 0, _, cur => .error (fuelOut, cur)
  | fuel + 1, ts, cur =>
    match parseLogicalAnd fuel ts cur with
    | .error e => .error e
    | .ok (expr, c1) => orGo fuel ts c1 expr
  termination_by structural f _ts _cur => f

/-- The `while (match(OR))` loop of `AST::parseLogicalOr`. -/
def orGo : Nat → List Token → Nat → astNode → Except (String × Nat) (astNode × Nat)
  | 0, _, cur, _ => .error (fuelOut, cur)
  | fuel + 1, ts, cur, expr =>
    let (m, c1) := matchT ts cur .OR
    if m then
      let op := (previous ts c1).lexme
      match parseLogicalAnd fuel ts c1 with
      | .error e => .error e
      | .ok (right, c2) => orGo fuel ts c2 (.binaryOpNode op expr right)
    else .ok (expr, cur)
  termination_by structural f _ts _cur _acc => f

/-- `AST::parseLogicalAnd`: left fold over `&`. -/
def parseLogicalAnd : Nat → List Token → Nat → Except (String × Nat) (astNode × Nat)
  | 0, _, cur => .error (fuelOut, cur)
  | fuel + 1, ts, cur =>
    match parseEquality fuel ts cur with
    | .error e => .error e
    | .ok (expr, c1) => andGo fuel ts c1 expr
  termination_by structural f _ts _cur => f

/-- The `while (match(AND))` loop of `AST::parseLogicalAnd`. -/
def andGo : Nat → List Token → Nat → astNode → Except (String × Nat) (astNode × Nat)
  | 0, _, cur, _ => .error (fuelOut, cur)
  | fuel + 1, ts, cur, expr =>
    let (m, c1) := matchT ts cur .AND
    if m then
      let op := (previous ts c1).lexme
      match parseEquality fuel ts c1 with
      | .error e => .error e
      | .ok (right, c2) => andGo fuel ts c2 (.binaryOpNode op expr right)
    else .ok (expr, cur)
  termination_by structural f _ts _cur _acc => f

/-- `AST::parseEquality`: left fold over `==` and `!=`. -/
def parseEquality : Nat → List Token → Nat → Except (String × Nat) (astNode × Nat)
  | 0, _, cur => .error (fuelOut, cur)
  | fuel + 1, ts, cur =>
    match parseComparison fuel ts cur with
    | .error e => .error e
    | .ok (expr, c1) => eqGo fuel ts c1 expr
  termination_by structural f _ts _cur => f

/-- The `while (match({EQUAL, NOTEQUAL}))` loop of `AST::parseEquality`. -/
def eqGo : Nat → List Token → Nat → astNode → Except (String × Nat) (astNode × Nat)
  | 0, _, cur, _ => .error (fuelOut, cur)
  | fuel + 1, ts, cur, expr =>
    let (m, c1) := matchL ts cur [.EQUAL, .NOTEQUAL]
    if m then
      let op := (previous ts c1).lexme
      match parseComparison fuel ts c1 with
      | .error e => .error e
      | .ok (right, c2) => eqGo fuel ts c2 (.binaryOpNode op expr right)
    else .ok (expr, cur)
  termination_by structural f _ts _cur _acc => f

/-- `AST::parseComparison`: left fold over `<`, `>`, `<=`, `>=`. -/
def parseComparison : Nat → List Token → Nat → Except (String × Nat) (astNode × Nat)
  | 0, _, cur => .error (fuelOut, cur)
  | fuel + 1, ts, cur =>
    match parseAddition fuel ts cur with
    | .error e => .error e
    | .ok (expr, c1) => cmpGo fuel ts c1 expr
  termination_by structural f _ts _cur => f

/-- The relational `while (match({...}))` loop of `AST::parseComparison`. -/
def cmpGo : Nat → List Token → Nat → astNode → Except (String × Nat) (astNode × Nat)
  | 0, _, cur, _ => .error (fuelOut, cur)
  | fuel + 1, ts, cur, expr =>
    let (m, c1) := matchL ts cur [.LESSTHAN, .MORETHAN, .LESSTHANEQUAL, .MORETHANEQUAL]
    if m then
      let op := (previous ts c1).lexme
      match parseAddition fuel ts c1 with
      | .error e => .error e
      | .ok (right, c2) => cmpGo fuel ts c2 (.binaryOpNode op expr right)
    else .ok (expr, cur)
  termination_by structural f _ts _cur _acc => f

/-- `AST::parseAddition` (`src/utils/ast.cpp`, lines 443-453): operands are
multiplicative expressions; left fold over `+` and `-`. -/
def parseAddition : Nat → List Token → Nat → Except (String × Nat) (astNode × Nat)
  | 0, _, cur => .error (fuelOut, cur)
  | fuel + 1, ts, cur =>
    match parseMultiplication fuel ts cur with
    | .error e => .error e
    | .ok (expr, c1) => addGo fuel ts c1 expr
  termination_by structural f _ts _cur => f

/-- The `while (match({ADD, SUB}))` loop of `AST::parseAddition`. -/
def addGo : Nat → List Token → Nat → astNode → Except (String × Nat) (astNode × Nat)
  | 0, _, cur, _ => .error (fuelOut, cur)
  | fuel + 1, ts, cur, expr =>
    let (m, c1) := matchL ts cur [.ADD, .SUB]
    if m then
      let op := (previous ts c1).lexme
      match parseMultiplication fuel ts c1 with
      | .error e => .error e
      | .ok (right, c2) => addGo fuel ts c2 (.binaryOpNode op expr right)
    else .ok (expr, cur)
  termination_by structural f _ts _cur _acc => f

/-- `AST::parseMultiplication` (`src/utils/ast.cpp`, lines 456-466): operands
are unary expressions; left fold over `*`, `/`, `%`. -/
def parseMultiplication : Nat → List Token → Nat → Except (String × Nat) (astNode × Nat)
  | 0, _, cur => .error (fuelOut, cur)
  | fuel + 1, ts, cur =>
    match parseUnary fuel ts cur with
    | .error e => .error e
    | .ok (expr, c1) => mulGo fuel ts c1 expr
  termination_by structural f _ts _cur => f

/-- The `while (match({MUL, DIV, MOD}))` loop of `AST::parseMultiplication`. -/
def mulGo : Nat → List Token → Nat → astNode → Except (String × Nat) (astNode × Nat)
  | 0, _, cur, _ => .error (fuelOut, cur)
  | fuel + 1, ts, cur, expr =>
    let (m, c1) := matchL ts cur [.MUL, .DIV, .MOD]
    if m then
      let op := (previous ts c1).lexme
      match parseUnary fuel ts c1 with
      | .error e => .error e
      | .ok (right, c2) => mulGo fuel ts c2 (.binaryOpNode op expr right)
    else .ok (expr, cur)
  termination_by structural f _ts _cur _acc => f

/-- `AST::parseUnary`: prefix `!`, `-`, `~`, `++`, `--` recurse; otherwise
the call/postfix level. -/
def parseUnary : Nat → List Token → Nat → Except (String × Nat) (astNode × Nat)
  | 0, _, cur => .error (fuelOut, cur)
  | fuel + 1, ts, cur =>
    let (m, c1) := matchL ts cur [.NOT, .SUB, .INVERT, .INCREMENT, .DECREMENT]
    if m then
      let op := (previous ts c1).lexme
      match parseUnary fuel ts c1 with
      | .error e => .error e
      | .ok (right, c2) => .ok (.unaryOpNode op right, c2)
    else parseCall fuel ts cur
  termination_by structural f _ts _cur => f

/-- `AST::parseCall`: a primary expression; when it is a variable followed by
`(`, a call with comma-separated arguments; otherwise the postfix
`++`/`--` loop. -/
def parseCall : Nat → List Token → Nat → Except (String × Nat) (astNode × Nat)
  | 0, _, cur => .error (fuelOut, cur)
  | fuel + 1, ts, cur =>
    match parsePrimary fuel ts cur with
    | .error e => .error e
    | .ok (expr, c1) =>
      match expr, check ts c1 .LPAREN with
      | .variableNode funcName _, true =>
        let (_, c2) := advance ts c1
        (if !check ts c2 .RPAREN then
          match argsGo fuel ts c2 [] with
          | .error e => .error e
          | .ok (args, c3) =>
            match consume ts c3 .RPAREN "Expected ')' after function arguments" with
            | .error e => .error e
            | .ok (_, c4) => .ok (.fnCallNode funcName args, c4)
        else
          match consume ts c2 .RPAREN "Expected ')' after function arguments" with
          | .error e => .error e
          | .ok (_, c4) => .ok (.fnCallNode funcName [], c4))
      | e, _ => .ok (postfixGo fuel ts c1 e)
  termination_by structural f _ts _cur => f

/-- The argument `do … while (match(COMMA))` loop of `AST::parseCall`. -/
def argsGo : Nat → List Token → Nat → List astNode →
    Except (String × Nat) (List astNode × Nat)
  | 0, _, cur, _ => .error (fuelOut, cur)
  | fuel + 1, ts, cur, acc =>
    match parseExpression fuel ts cur with
    | .error e => .error e
    | .ok (a, c1) =>
      let acc' := acc ++ [a]
      let (m, c2) := matchT ts c1 .COMMA
      if m then argsGo fuel ts c2 acc' else .ok (acc', c2)
  termination_by structural f _ts _cur _acc => f

/-- `AST::parsePrimary`: string literal; the identifiers `true`/`false` as
boolean literals; numeric literal (double iff the lexeme contains `.`);
character literal; identifier as variable reference; parenthesised
expression; otherwise the `"Expected expression"` error. -/
def parsePrimary : Nat → List Token → Nat → Except (String × Nat) (astNode × Nat)
  | 0, _, cur => .error (fuelOut, cur)
  | fuel + 1, ts, cur =>
    let (mStr, curS) := matchT ts cur .STRING
    if mStr then .ok (.stringLiteralNode (previous ts curS).lexme, curS)
    else if check ts cur .IDENTIFIER = true ∧
        ((peek ts cur).lexme = "true" ∨ (peek ts cur).lexme = "false") then
      let t := peek ts cur
      let (_, c1) := advance ts cur
      .ok (.booleanLiteralNode (t.lexme == "true"), c1)
    else
      let (mLit, curL) := matchT ts cur .LITERAL
      if mLit then
        -- `value.find('.') != std::string::npos` decides double vs. int
        let value := (previous ts curL).lexme
        if value.toList.contains '.' then .ok (.doubleLiteralNode value, curL)
        else .ok (.intLiteralNode (stoi value), curL)
      else
        let (mCh, curC) := matchT ts cur .CHAR
        if mCh then .ok (.charLiteralNode (decodeCharLexeme (previous ts curC).lexme), curC)
        else
          let (mId, curI) := matchT ts cur .IDENTIFIER
          if mId then .ok (.variableNode (previous ts curI).lexme .INFERRED, curI)
          else
            let (mLp, curP) := matchT ts cur .LPAREN
            if mLp then
              match parseExpression fuel ts curP with
              | .error e => .error e
              | .ok (e, c1) =>
                match consume ts c1 .RPAREN "Expected ')' after expression" with
                | .error e2 => .error e2
                | .ok (_, c2) => .ok (e, c2)
            else
              let current := peek ts cur
              .error ("Expected expression at line " ++ toString current.line ++
                ", column " ++ toString current.column ++ " (found '" ++ current.lexme ++ "')", cur)

  termination_by structural f _ts _cur => f
end

/-- The top-level loop of `AST::build` (`src/utils/ast.cpp`, lines 94-128):
stray `;`/`}` skipped; each declaration attempted under a `try` whose `catch`
records the error on `std::cerr` (modelled by the `log` list), sets
`hadError`, synchronizes and CONTINUES; after the loop, `hadError` turns into
the single aggregate `astError`.  Synchronization starts from the error's
carried position — in the C++, `current_` persists past the throw, so the
catch block's loop resumes wherever parsing stopped, not at the failed
declaration's start.  Only non-null declarations are pushed. -/
def buildGo : Nat → List Token → Nat → List (Option astNode) → List String → Bool →
    List String × Except String astNode
  | 0, _, _, _, log, _ => (log, .error fuelOut)
  | fuel + 1, ts, cur, declarations, log, hadError =>
    if isAtEnd ts cur then
      if hadError then (log, .error "Failed to build AST due to parse errors")
      else (log, .ok (.programNode declarations))
    else if check ts cur .SEMICOLON || check ts cur .RBRACE then
      let (_, c1) := advance ts cur
      buildGo fuel ts c1 declarations log hadError
    else
      match parseDeclaration fuel ts cur with
      | .ok (some decl, c1) => buildGo fuel ts c1 (declarations ++ [some decl]) log hadError
      | .ok (none, c1) => buildGo fuel ts c1 declarations log hadError
      | .error (e, epos) =>
        buildGo fuel ts (sync fuel ts epos) declarations (log ++ ["Parse error: " ++ e]) true

/-- `AST::build`: rejects an empty token sequence up front, then runs the
declaration loop; returns the `std::cerr` log alongside the outcome (the
`programNode` that becomes `root_`, or the thrown `astError` message). -/
def build (fuel : Nat) (ts : List Token) : List String × Except String astNode :=
  if ts.isEmpty then ([], .error "No tokens to parse - input file may be empty")
  else buildGo fuel ts 0 [] [] false


mutual
/-- Tree-wide statement of claim C10's invariant: no `bodyNode` or
`programNode` anywhere in the tree holds a null (`none`) entry in its child
list.  The recursion through the other constructors only reaches the nested
bodies. -/
def noNullBodies : astNode → Bool
  | .stringLiteralNode _ => true
  | .intLiteralNode _ => true
  | .doubleLiteralNode _ => true
  | .charLiteralNode _ => true
  | .booleanLiteralNode _ => true
  | .variableNode _ _ => true
  | .unaryOpNode _ operand => noNullBodies operand
  | .binaryOpNode _ l r => noNullBodies l && noNullBodies r
  | .assignOpNode _ v _ => noNullBodies v
  | .fnCallNode _ args => noNullBodiesList args
  | .importNode _ => true
  | .ifNode c t e => noNullBodies c && noNullBodies t && noNullBodiesOpt e
  | .forNode i c inc b =>
      noNullBodiesOpt i && noNullBodiesOpt c && noNullBodiesOpt inc && noNullBodies b
  | .whileNode c b => noNullBodies c && noNullBodies b
  | .returnNode v => noNullBodiesOpt v
  | .breakNode => true
  | .continueNode => true
  | .varDeclNode _ _ ini => noNullBodiesOpt ini
  | .functionNode _ _ _ b => noNullBodies b
  | .bodyNode stmts => noNullBodiesEntries stmts
  | .programNode decls => noNullBodiesEntries decls

/-- `noNullBodies` over an argument list. -/
def noNullBodiesList : List astNode → Bool
  | [] => true
  | a :: rest => noNullBodies a && noNullBodiesList rest

/-- `noNullBodies` over an optional child (null passes: an absent child is
not a null list entry). -/
def noNullBodiesOpt : Option astNode → Bool
  | none => true
  | some a => noNullBodies a

/-- `noNullBodies` over a `bodyNode`/`programNode` child vector: a `none`
entry is a null in the list and fails. -/
def noNullBodiesEntries : List (Option astNode) → Bool
  | [] => true
  | none :: _ => false
  | some a :: rest => noNullBodies a && noNullBodiesEntries rest
end

/-- Helper: the only error outcomes of the `build` loop are the aggregate
failure message thrown after the loop, or fuel exhaustion — every
per-declaration `astError` is caught inside the loop and logged, never
returned. -/
theorem buildGo_error_msg (fuel : Nat) :
    ∀ ts cur decls log hadError log' m,
      buildGo fuel ts cur decls log hadError = (log', .error m) →
      m = "Failed to build AST due to parse errors" ∨ m = fuelOut := by
  induction fuel with
  | zero =>
    intro ts cur decls log hadError log' m h
    simp [buildGo] at h
    exact Or.inr h.2.symm
  | succ n ih =>
    intro ts cur decls log hadError log' m h
    rw [buildGo] at h
    split at h
    · split at h
      · simp at h
        exact Or.inl h.2.symm
      · simp at h
    · split at h
      · exact ih _ _ _ _ _ _ _ h
      · split at h
        · exact ih _ _ _ _ _ _ _ h
        · exact ih _ _ _ _ _ _ _ h
        · exact ih _ _ _ _ _ _ _ h

/-- Helper: the statement loop of `parseBody` only ever appends `some`
entries to its accumulator, so an all-`some` accumulator yields an all-`some`
statement list. -/
theorem bodyGo_isSome (fuel : Nat) :
    ∀ ts cur acc stmts cur',
      (∀ x ∈ acc, x.isSome) →
      bodyGo fuel ts cur acc = .ok (stmts, cur') →
      ∀ x ∈ stmts, x.isSome := by
  induction fuel with
  | zero =>
    intro ts cur acc stmts cur' hacc h
    simp [bodyGo] at h
  | succ n ih =>
    intro ts cur acc stmts cur' hacc h
    rw [bodyGo] at h
    split at h
    · split at h
      split at h
      · exact ih _ _ _ _ _ hacc h
      · split at h
        · simp at h
        · split at h
          · rename_i stmt _
            refine ih _ _ _ _ _ ?_ h
            intro x hx
            rcases List.mem_append.mp hx with hx | hx
            · exact hacc x hx
            · simp at hx
              simp [hx]
          · exact ih _ _ _ _ _ hacc h
    · rw [Except.ok.injEq, Prod.mk.injEq] at h
      obtain ⟨h1, _⟩ := h
      exact h1 ▸ hacc

/-- Helper: the `build` loop only ever appends `some` entries to its
declarations accumulator, so on success it returns a `programNode` whose
declaration list is all-`some`. -/
theorem buildGo_isSome (fuel : Nat) :
    ∀ ts cur decls log hadError log' prog,
      (∀ x ∈ decls, x.isSome) →
      buildGo fuel ts cur decls log hadError = (log', .ok prog) →
      ∃ ds, prog = .programNode ds ∧ ∀ x ∈ ds, x.isSome := by
  induction fuel with
  | zero =>
    intro ts cur decls log hadError log' prog hd h
    simp [buildGo] at h
  | succ n ih =>
    intro ts cur decls log hadError log' prog hd h
    rw [buildGo] at h
    split at h
    · split at h
      · simp at h
      · rw [Prod.mk.injEq] at h
        obtain ⟨_, h2⟩ := h
        rw [Except.ok.injEq] at h2
        exact ⟨decls, h2.symm, hd⟩
    · split at h
      · exact ih _ _ _ _ _ _ _ hd h
      · split at h
        · rename_i decl _
          refine ih _ _ _ _ _ _ _ ?_ h
          intro x hx
          rcases List.mem_append.mp hx with hx | hx
          · exact hd x hx
          · simp at hx
            simp [hx]
        · exact ih _ _ _ _ _ _ _ hd h
        · exact ih _ _ _ _ _ _ _ hd h


/-- Helper: appending a non-null, clean entry keeps a child vector clean. -/
theorem noNullBodiesEntries_append (xs : List (Option astNode)) (a : astNode)
    (hxs : noNullBodiesEntries xs = true) (ha : noNullBodies a = true) :
    noNullBodiesEntries (xs ++ [some a]) = true := by
  induction xs with
  | nil => simp [noNullBodiesEntries, ha]
  | cons x rest ih =>
    match x with
    | none => simp [noNullBodiesEntries] at hxs
    | some b =>
      rw [noNullBodiesEntries] at hxs
      rw [List.cons_append, noNullBodiesEntries]
      simp only [Bool.and_eq_true] at hxs ⊢
      exact ⟨hxs.1, ih hxs.2⟩

/-- Helper: appending a clean expression keeps an argument list clean. -/
theorem noNullBodiesList_append (xs : List astNode) (a : astNode)
    (hxs : noNullBodiesList xs = true) (ha : noNullBodies a = true) :
    noNullBodiesList (xs ++ [a]) = true := by
  induction xs with
  | nil => simp [noNullBodiesList, ha]
  | cons x rest ih =>
    rw [noNullBodiesList] at hxs
    rw [List.cons_append, noNullBodiesList]
    simp only [Bool.and_eq_true] at hxs ⊢
    exact ⟨hxs.1, ih hxs.2⟩

/-- Helper: the postfix `++`/`--` loop wraps its expression in
`unaryOpNode`s only, preserving `noNullBodies`. -/
theorem postfixGo_noNullBodies (fuel : Nat) :
    ∀ ts cur e, noNullBodies e = true →
      noNullBodies (postfixGo fuel ts cur e).1 = true := by
  induction fuel with
  | zero => intro ts cur e he; simpa [postfixGo] using he
  | succ n ih =>
    intro ts cur e he
    rw [postfixGo]
    split
    split
    · exact ih _ _ _ (by simpa [noNullBodies] using he)
    · simpa using he

set_option linter.unreachableTactic false in
set_option linter.unusedTactic false in
/-- Helper: every result any parser function returns satisfies the tree-wide
no-null-bodies invariant; the loop conjuncts additionally carry it for their
accumulators.  One conjunct per function of the mutual block, proved by one
induction on the fuel. -/
theorem parse_noNullBodies (fuel : Nat) :
    (∀ ts cur d c, parseDeclaration fuel ts cur = .ok (d, c) → noNullBodiesOpt d = true) ∧
    (∀ ts cur r c, parseFunction fuel ts cur = .ok (r, c) → noNullBodies r = true) ∧
    (∀ ts cur r c, parseVarDeclaration fuel ts cur = .ok (r, c) → noNullBodies r = true) ∧
    (∀ ts cur r c, parseStatement fuel ts cur = .ok (r, c) → noNullBodies r = true) ∧
    (∀ ts cur r c, parseIfStatement fuel ts cur = .ok (r, c) → noNullBodies r = true) ∧
    (∀ ts cur r c, parseWhileStatement fuel ts cur = .ok (r, c) → noNullBodies r = true) ∧
    (∀ ts cur r c, parseForStatement fuel ts cur = .ok (r, c) → noNullBodies r = true) ∧
    (∀ ts cur r c, parseReturnStatement fuel ts cur = .ok (r, c) → noNullBodies r = true) ∧
    (∀ ts cur r c, parseBody fuel ts cur = .ok (r, c) → noNullBodies r = true) ∧
    (∀ ts cur acc r c, noNullBodiesEntries acc = true →
      bodyGo fuel ts cur acc = .ok (r, c) → noNullBodiesEntries r = true) ∧
    (∀ ts cur r c, parseExpression fuel ts cur = .ok (r, c) → noNullBodies r = true) ∧
    (∀ ts cur r c, parseAssignment fuel ts cur = .ok (r, c) → noNullBodies r = true) ∧
    (∀ ts cur r c, parseLogicalOr fuel ts cur = .ok (r, c) → noNullBodies r = true) ∧
    (∀ ts cur e r c, noNullBodies e = true →
      orGo fuel ts cur e = .ok (r, c) → noNullBodies r = true) ∧
    (∀ ts cur r c, parseLogicalAnd fuel ts cur = .ok (r, c) → noNullBodies r = true) ∧
    (∀ ts cur e r c, noNullBodies e = true →
      andGo fuel ts cur e = .ok (r, c) → noNullBodies r = true) ∧
    (∀ ts cur r c, parseEquality fuel ts cur = .ok (r, c) → noNullBodies r = true) ∧
    (∀ ts cur e r c, noNullBodies e = true →
      eqGo fuel ts cur e = .ok (r, c) → noNullBodies r = true) ∧
    (∀ ts cur r c, parseComparison fuel ts cur = .ok (r, c) → noNullBodies r = true) ∧
    (∀ ts cur e r c, noNullBodies e = true →
      cmpGo fuel ts cur e = .ok (r, c) → noNullBodies r = true) ∧
    (∀ ts cur r c, parseAddition fuel ts cur = .ok (r, c) → noNullBodies r = true) ∧
    (∀ ts cur e r c, noNullBodies e = true →
      addGo fuel ts cur e = .ok (r, c) → noNullBodies r = true) ∧
    (∀ ts cur r c, parseMultiplication fuel ts cur = .ok (r, c) → noNullBodies r = true) ∧
    (∀ ts cur e r c, noNullBodies e = true →
      mulGo fuel ts cur e = .ok (r, c) → noNullBodies r = true) ∧
    (∀ ts cur r c, parseUnary fuel ts cur = .ok (r, c) → noNullBodies r = true) ∧
    (∀ ts cur r c, parseCall fuel ts cur = .ok (r, c) → noNullBodies r = true) ∧
    (∀ ts cur acc r c, noNullBodiesList acc = true →
      argsGo fuel ts cur acc = .ok (r, c) → noNullBodiesList r = true) ∧
    (∀ ts cur r c, parsePrimary fuel ts cur = .ok (r, c) → noNullBodies r = true) := by
  induction fuel with
  | zero =>
    refine ⟨?_, ?_, ?_, ?_, ?_, ?_, ?_, ?_, ?_, ?_, ?_, ?_, ?_, ?_, ?_, ?_, ?_, ?_, ?_, ?_, ?_, ?_, ?_, ?_, ?_, ?_, ?_, ?_⟩
    · intro ts cur r c h; simp [parseDeclaration] at h
    · intro ts cur r c h; simp [parseFunction] at h
    · intro ts cur r c h; simp [parseVarDeclaration] at h
    · intro ts cur r c h; simp [parseStatement] at h
    · intro ts cur r c h; simp [parseIfStatement] at h
    · intro ts cur r c h; simp [parseWhileStatement] at h
    · intro ts cur r c h; simp [parseForStatement] at h
    · intro ts cur r c h; simp [parseReturnStatement] at h
    · intro ts cur r c h; simp [parseBody] at h
    · intro ts cur acc r c hacc h; simp [bodyGo] at h
    · intro ts cur r c h; simp [parseExpression] at h
    · intro ts cur r c h; simp [parseAssignment] at h
    · intro ts cur r c h; simp [parseLogicalOr] at h
    · intro ts cur e r c he h; simp [orGo] at h
    · intro ts cur r c h; simp [parseLogicalAnd] at h
    · intro ts cur e r c he h; simp [andGo] at h
    · intro ts cur r c h; simp [parseEquality] at h
    · intro ts cur e r c he h; simp [eqGo] at h
    · intro ts cur r c h; simp [parseComparison] at h
    · intro ts cur e r c he h; simp [cmpGo] at h
    · intro ts cur r c h; simp [parseAddition] at h
    · intro ts cur e r c he h; simp [addGo] at h
    · intro ts cur r c h; simp [parseMultiplication] at h
    · intro ts cur e r c he h; simp [mulGo] at h
    · intro ts cur r c h; simp [parseUnary] at h
    · intro ts cur r c h; simp [parseCall] at h
    · intro ts cur acc r c hacc h; simp [argsGo] at h
    · intro ts cur r c h; simp [parsePrimary] at h
  | succ n ih =>
    obtain ⟨ihD, ihF, ihV, ihS, ihIf, ihW, ihFor, ihR, ihB, ihBG, ihE, ihA, ihOr, ihOrG, ihAnd, ihAndG, ihEq, ihEqG, ihCmp, ihCmpG, ihAdd, ihAddG, ihMul, ihMulG, ihU, ihC, ihArgs, ihP⟩ := ih
    refine ⟨?_, ?_, ?_, ?_, ?_, ?_, ?_, ?_, ?_, ?_, ?_, ?_, ?_, ?_, ?_, ?_, ?_, ?_, ?_, ?_, ?_, ?_, ?_, ?_, ?_, ?_, ?_, ?_⟩
    · intro ts cur r c h
      rw [parseDeclaration] at h
      try dsimp only at h
      repeat' split at h
      all_goals try simp only [Except.ok.injEq, Prod.mk.injEq, reduceCtorEq] at h
      all_goals try
        (obtain ⟨h1, h2⟩ := h
         subst h1
         try simp only [noNullBodies, noNullBodiesOpt, noNullBodiesList, noNullBodiesEntries,
           Bool.and_eq_true, Bool.and_true, Bool.true_and, and_true, true_and]
         repeat' apply And.intro)
      all_goals first
        | rfl
        | exact ihF _ _ _ _ (by assumption)
        | exact ihV _ _ _ _ (by assumption)
        | exact ihS _ _ _ _ (by assumption)
        | exact ihIf _ _ _ _ (by assumption)
        | exact ihW _ _ _ _ (by assumption)
        | exact ihFor _ _ _ _ (by assumption)
        | exact ihR _ _ _ _ (by assumption)
        | exact ihB _ _ _ _ (by assumption)
        | exact ihE _ _ _ _ (by assumption)
        | exact ihA _ _ _ _ (by assumption)
        | exact ihU _ _ _ _ (by assumption)
        | exact ihC _ _ _ _ (by assumption)
        | exact ihP _ _ _ _ (by assumption)
    · intro ts cur r c h
      rw [parseFunction] at h
      try dsimp only at h
      repeat' split at h
      all_goals try simp only [Except.ok.injEq, Prod.mk.injEq, reduceCtorEq] at h
      all_goals try
        (obtain ⟨h1, h2⟩ := h
         subst h1
         try simp only [noNullBodies, noNullBodiesOpt, noNullBodiesList, noNullBodiesEntries,
           Bool.and_eq_true, Bool.and_true, Bool.true_and, and_true, true_and]
         repeat' apply And.intro)
      all_goals first
        | rfl
        | exact ihF _ _ _ _ (by assumption)
        | exact ihV _ _ _ _ (by assumption)
        | exact ihS _ _ _ _ (by assumption)
        | exact ihIf _ _ _ _ (by assumption)
        | exact ihW _ _ _ _ (by assumption)
        | exact ihFor _ _ _ _ (by assumption)
        | exact ihR _ _ _ _ (by assumption)
        | exact ihB _ _ _ _ (by assumption)
        | exact ihE _ _ _ _ (by assumption)
        | exact ihA _ _ _ _ (by assumption)
        | exact ihU _ _ _ _ (by assumption)
        | exact ihC _ _ _ _ (by assumption)
        | exact ihP _ _ _ _ (by assumption)
    · intro ts cur r c h
      rw [parseVarDeclaration] at h
      try dsimp only at h
      repeat' split at h
      all_goals try simp only [Except.ok.injEq, Prod.mk.injEq, reduceCtorEq] at h
      all_goals try
        (obtain ⟨h1, h2⟩ := h
         subst h1
         try simp only [noNullBodies, noNullBodiesOpt, noNullBodiesList, noNullBodiesEntries,
           Bool.and_eq_true, Bool.and_true, Bool.true_and, and_true, true_and]
         repeat' apply And.intro)
      all_goals first
        | rfl
        | exact ihF _ _ _ _ (by assumption)
        | exact ihV _ _ _ _ (by assumption)
        | exact ihS _ _ _ _ (by assumption)
        | exact ihIf _ _ _ _ (by assumption)
        | exact ihW _ _ _ _ (by assumption)
        | exact ihFor _ _ _ _ (by assumption)
        | exact ihR _ _ _ _ (by assumption)
        | exact ihB _ _ _ _ (by assumption)
        | exact ihE _ _ _ _ (by assumption)
        | exact ihA _ _ _ _ (by assumption)
        | exact ihU _ _ _ _ (by assumption)
        | exact ihC _ _ _ _ (by assumption)
        | exact ihP _ _ _ _ (by assumption)
    · intro ts cur r c h
      rw [parseStatement] at h
      try dsimp only at h
      repeat' split at h
      all_goals try simp only [Except.ok.injEq, Prod.mk.injEq, reduceCtorEq] at h
      all_goals try
        (obtain ⟨h1, h2⟩ := h
         subst h1
         try simp only [noNullBodies, noNullBodiesOpt, noNullBodiesList, noNullBodiesEntries,
           Bool.and_eq_true, Bool.and_true, Bool.true_and, and_true, true_and]
         repeat' apply And.intro)
      all_goals first
        | rfl
        | exact ihF _ _ _ _ (by assumption)
        | exact ihV _ _ _ _ (by assumption)
        | exact ihS _ _ _ _ (by assumption)
        | exact ihIf _ _ _ _ (by assumption)
        | exact ihW _ _ _ _ (by assumption)
        | exact ihFor _ _ _ _ (by assumption)
        | exact ihR _ _ _ _ (by assumption)
        | exact ihB _ _ _ _ (by assumption)
        | exact ihE _ _ _ _ (by assumption)
        | exact ihA _ _ _ _ (by assumption)
        | exact ihU _ _ _ _ (by assumption)
        | exact ihC _ _ _ _ (by assumption)
        | exact ihP _ _ _ _ (by assumption)
    · intro ts cur r c h
      rw [parseIfStatement] at h
      try dsimp only at h
      repeat' split at h
      all_goals try simp only [Except.ok.injEq, Prod.mk.injEq, reduceCtorEq] at h
      all_goals try
        (obtain ⟨h1, h2⟩ := h
         subst h1
         try simp only [noNullBodies, noNullBodiesOpt, noNullBodiesList, noNullBodiesEntries,
           Bool.and_eq_true, Bool.and_true, Bool.true_and, and_true, true_and]
         repeat' apply And.intro)
      all_goals first
        | rfl
        | exact ihF _ _ _ _ (by assumption)
        | exact ihV _ _ _ _ (by assumption)
        | exact ihS _ _ _ _ (by assumption)
        | exact ihIf _ _ _ _ (by assumption)
        | exact ihW _ _ _ _ (by assumption)
        | exact ihFor _ _ _ _ (by assumption)
        | exact ihR _ _ _ _ (by assumption)
        | exact ihB _ _ _ _ (by assumption)
        | exact ihE _ _ _ _ (by assumption)
        | exact ihA _ _ _ _ (by assumption)
        | exact ihU _ _ _ _ (by assumption)
        | exact ihC _ _ _ _ (by assumption)
        | exact ihP _ _ _ _ (by assumption)
    · intro ts cur r c h
      rw [parseWhileStatement] at h
      try dsimp only at h
      repeat' split at h
      all_goals try simp only [Except.ok.injEq, Prod.mk.injEq, reduceCtorEq] at h
      all_goals try
        (obtain ⟨h1, h2⟩ := h
         subst h1
         try simp only [noNullBodies, noNullBodiesOpt, noNullBodiesList, noNullBodiesEntries,
           Bool.and_eq_true, Bool.and_true, Bool.true_and, and_true, true_and]
         repeat' apply And.intro)
      all_goals first
        | rfl
        | exact ihF _ _ _ _ (by assumption)
        | exact ihV _ _ _ _ (by assumption)
        | exact ihS _ _ _ _ (by assumption)
        | exact ihIf _ _ _ _ (by assumption)
        | exact ihW _ _ _ _ (by assumption)
        | exact ihFor _ _ _ _ (by assumption)
        | exact ihR _ _ _ _ (by assumption)
        | exact ihB _ _ _ _ (by assumption)
        | exact ihE _ _ _ _ (by assumption)
        | exact ihA _ _ _ _ (by assumption)
        | exact ihU _ _ _ _ (by assumption)
        | exact ihC _ _ _ _ (by assumption)
        | exact ihP _ _ _ _ (by assumption)
    · intro ts cur r c h
      rw [parseForStatement] at h
      try dsimp only at h
      repeat' split at h
      all_goals try simp only [Except.ok.injEq, Prod.mk.injEq, reduceCtorEq] at h
      all_goals try
        (obtain ⟨h1, h2⟩ := h
         subst h1
         try simp only [noNullBodies, noNullBodiesOpt, noNullBodiesList, noNullBodiesEntries,
           Bool.and_eq_true, Bool.and_true, Bool.true_and, and_true, true_and]
         repeat' apply And.intro)
      all_goals first
        | rfl
        | exact ihF _ _ _ _ (by assumption)
        | exact ihV _ _ _ _ (by assumption)
        | exact ihS _ _ _ _ (by assumption)
        | exact ihIf _ _ _ _ (by assumption)
        | exact ihW _ _ _ _ (by assumption)
        | exact ihFor _ _ _ _ (by assumption)
        | exact ihR _ _ _ _ (by assumption)
        | exact ihB _ _ _ _ (by assumption)
        | exact ihE _ _ _ _ (by assumption)
        | exact ihA _ _ _ _ (by assumption)
        | exact ihU _ _ _ _ (by assumption)
        | exact ihC _ _ _ _ (by assumption)
        | exact ihP _ _ _ _ (by assumption)
    · intro ts cur r c h
      rw [parseReturnStatement] at h
      try dsimp only at h
      repeat' split at h
      all_goals try simp only [Except.ok.injEq, Prod.mk.injEq, reduceCtorEq] at h
      all_goals try
        (obtain ⟨h1, h2⟩ := h
         subst h1
         try simp only [noNullBodies, noNullBodiesOpt, noNullBodiesList, noNullBodiesEntries,
           Bool.and_eq_true, Bool.and_true, Bool.true_and, and_true, true_and]
         repeat' apply And.intro)
      all_goals first
        | rfl
        | exact ihF _ _ _ _ (by assumption)
        | exact ihV _ _ _ _ (by assumption)
        | exact ihS _ _ _ _ (by assumption)
        | exact ihIf _ _ _ _ (by assumption)
        | exact ihW _ _ _ _ (by assumption)
        | exact ihFor _ _ _ _ (by assumption)
        | exact ihR _ _ _ _ (by assumption)
        | exact ihB _ _ _ _ (by assumption)
        | exact ihE _ _ _ _ (by assumption)
        | exact ihA _ _ _ _ (by assumption)
        | exact ihU _ _ _ _ (by assumption)
        | exact ihC _ _ _ _ (by assumption)
        | exact ihP _ _ _ _ (by assumption)
    · intro ts cur r c h
      rw [parseBody] at h
      repeat' split at h
      all_goals try simp only [Except.ok.injEq, Prod.mk.injEq, reduceCtorEq] at h
      all_goals
        (obtain ⟨h1, h2⟩ := h
         subst h1
         simp only [noNullBodies]
         exact ihBG _ _ [] _ _ rfl (by assumption))
    · intro ts cur acc r c hacc h
      rw [bodyGo] at h
      split at h
      · split at h
        split at h
        · exact ihBG _ _ _ _ _ hacc h
        · split at h
          · simp at h
          · split at h
            · have hd := ihD _ _ _ _ (by assumption)
              exact ihBG _ _ _ _ _ (noNullBodiesEntries_append _ _ hacc hd) h
            · exact ihBG _ _ _ _ _ hacc h
      · simp only [Except.ok.injEq, Prod.mk.injEq] at h
        rw [← h.1]
        exact hacc
    · intro ts cur r c h
      rw [parseExpression] at h
      exact ihA _ _ _ _ h
    · intro ts cur r c h
      rw [parseAssignment] at h
      try dsimp only at h
      repeat' split at h
      all_goals try simp only [reduceCtorEq] at h
      all_goals try
        (simp only [Except.ok.injEq, Prod.mk.injEq] at h
         rw [← h.1]
         exact ihOr _ _ _ _ (by assumption))
      all_goals
        (simp only [Except.ok.injEq, Prod.mk.injEq] at h
         obtain ⟨h1, h2⟩ := h
         subst h1
         simp only [noNullBodies]
         exact ihA _ _ _ _ (by assumption))
    · intro ts cur r c h
      rw [parseLogicalOr] at h
      split at h
      · simp at h
      · exact ihOrG _ _ _ _ _ (ihAnd _ _ _ _ (by assumption)) h
    · intro ts cur e r c he h
      rw [orGo] at h
      try dsimp only at h
      repeat' split at h
      all_goals try simp only [reduceCtorEq] at h
      all_goals try
        (simp only [Except.ok.injEq, Prod.mk.injEq] at h
         rw [← h.1]
         exact he)
      all_goals
        (refine ihOrG _ _ _ _ _ ?_ h
         simp only [noNullBodies, Bool.and_eq_true]
         exact ⟨he, ihAnd _ _ _ _ (by assumption)⟩)
    · intro ts cur r c h
      rw [parseLogicalAnd] at h
      split at h
      · simp at h
      · exact ihAndG _ _ _ _ _ (ihEq _ _ _ _ (by assumption)) h
    · intro ts cur e r c he h
      rw [andGo] at h
      try dsimp only at h
      repeat' split at h
      all_goals try simp only [reduceCtorEq] at h
      all_goals try
        (simp only [Except.ok.injEq, Prod.mk.injEq] at h
         rw [← h.1]
         exact he)
      all_goals
        (refine ihAndG _ _ _ _ _ ?_ h
         simp only [noNullBodies, Bool.and_eq_true]
         exact ⟨he, ihEq _ _ _ _ (by assumption)⟩)
    · intro ts cur r c h
      rw [parseEquality] at h
      split at h
      · simp at h
      · exact ihEqG _ _ _ _ _ (ihCmp _ _ _ _ (by assumption)) h
    · intro ts cur e r c he h
      rw [eqGo] at h
      try dsimp only at h
      repeat' split at h
      all_goals try simp only [reduceCtorEq] at h
      all_goals try
        (simp only [Except.ok.injEq, Prod.mk.injEq] at h
         rw [← h.1]
         exact he)
      all_goals
        (refine ihEqG _ _ _ _ _ ?_ h
         simp only [noNullBodies, Bool.and_eq_true]
         exact ⟨he, ihCmp _ _ _ _ (by assumption)⟩)
    · intro ts cur r c h
      rw [parseComparison] at h
      split at h
      · simp at h
      · exact ihCmpG _ _ _ _ _ (ihAdd _ _ _ _ (by assumption)) h
    · intro ts cur e r c he h
      rw [cmpGo] at h
      try dsimp only at h
      repeat' split at h
      all_goals try simp only [reduceCtorEq] at h
      all_goals try
        (simp only [Except.ok.injEq, Prod.mk.injEq] at h
         rw [← h.1]
         exact he)
      all_goals
        (refine ihCmpG _ _ _ _ _ ?_ h
         simp only [noNullBodies, Bool.and_eq_true]
         exact ⟨he, ihAdd _ _ _ _ (by assumption)⟩)
    · intro ts cur r c h
      rw [parseAddition] at h
      split at h
      · simp at h
      · exact ihAddG _ _ _ _ _ (ihMul _ _ _ _ (by assumption)) h
    · intro ts cur e r c he h
      rw [addGo] at h
      try dsimp only at h
      repeat' split at h
      all_goals try simp only [reduceCtorEq] at h
      all_goals try
        (simp only [Except.ok.injEq, Prod.mk.injEq] at h
         rw [← h.1]
         exact he)
      all_goals
        (refine ihAddG _ _ _ _ _ ?_ h
         simp only [noNullBodies, Bool.and_eq_true]
         exact ⟨he, ihMul _ _ _ _ (by assumption)⟩)
    · intro ts cur r c h
      rw [parseMultiplication] at h
      split at h
      · simp at h
      · exact ihMulG _ _ _ _ _ (ihU _ _ _ _ (by assumption)) h
    · intro ts cur e r c he h
      rw [mulGo] at h
      try dsimp only at h
      repeat' split at h
      all_goals try simp only [reduceCtorEq] at h
      all_goals try
        (simp only [Except.ok.injEq, Prod.mk.injEq] at h
         rw [← h.1]
         exact he)
      all_goals
        (refine ihMulG _ _ _ _ _ ?_ h
         simp only [noNullBodies, Bool.and_eq_true]
         exact ⟨he, ihU _ _ _ _ (by assumption)⟩)
    · intro ts cur r c h
      rw [parseUnary] at h
      try dsimp only at h
      repeat' split at h
      all_goals try simp only [reduceCtorEq] at h
      all_goals try (exact ihC _ _ _ _ h)
      all_goals
        (simp only [Except.ok.injEq, Prod.mk.injEq] at h
         obtain ⟨h1, h2⟩ := h
         subst h1
         simp only [noNullBodies]
         exact ihU _ _ _ _ (by assumption))
    · intro ts cur r c h
      rw [parseCall] at h
      split at h
      · simp at h
      · split at h
        · try dsimp only at h
          repeat' split at h
          all_goals try simp only [reduceCtorEq] at h
          all_goals
            (simp only [Except.ok.injEq, Prod.mk.injEq] at h
             obtain ⟨h1, h2⟩ := h
             subst h1
             simp only [noNullBodies, noNullBodiesList])
          all_goals exact ihArgs _ _ [] _ _ rfl (by assumption)
        · have hpost : ∀ p q e2, postfixGo n ts p e2 = (r, q) →
              noNullBodies e2 = true → noNullBodies r = true := by
            intro p q e2 hpq he2
            have hq := postfixGo_noNullBodies n ts p e2 he2
            rw [hpq] at hq
            exact hq
          simp only [Except.ok.injEq] at h
          exact hpost _ _ _ h (ihP _ _ _ _ (by assumption))
    · intro ts cur acc r c hacc h
      rw [argsGo] at h
      try dsimp only at h
      repeat' split at h
      all_goals try simp only [reduceCtorEq] at h
      all_goals try
        (simp only [Except.ok.injEq, Prod.mk.injEq] at h
         have ha := ihE _ _ _ _ (by assumption)
         rw [← h.1]
         exact noNullBodiesList_append _ _ hacc ha)
      all_goals
        (have ha := ihE _ _ _ _ (by assumption)
         exact ihArgs _ _ _ _ _ (noNullBodiesList_append _ _ hacc ha) h)
    · intro ts cur r c h
      rw [parsePrimary] at h
      try dsimp only at h
      repeat' split at h
      all_goals try simp only [Except.ok.injEq, Prod.mk.injEq, reduceCtorEq] at h
      all_goals try
        (obtain ⟨h1, h2⟩ := h
         subst h1
         try simp only [noNullBodies, noNullBodiesOpt, noNullBodiesList, noNullBodiesEntries,
           Bool.and_eq_true, Bool.and_true, Bool.true_and, and_true, true_and]
         repeat' apply And.intro)
      all_goals first
        | rfl
        | exact ihF _ _ _ _ (by assumption)
        | exact ihV _ _ _ _ (by assumption)
        | exact ihS _ _ _ _ (by assumption)
        | exact ihIf _ _ _ _ (by assumption)
        | exact ihW _ _ _ _ (by assumption)
        | exact ihFor _ _ _ _ (by assumption)
        | exact ihR _ _ _ _ (by assumption)
        | exact ihB _ _ _ _ (by assumption)
        | exact ihE _ _ _ _ (by assumption)
        | exact ihA _ _ _ _ (by assumption)
        | exact ihU _ _ _ _ (by assumption)
        | exact ihC _ _ _ _ (by assumption)
        | exact ihP _ _ _ _ (by assumption)

/-- Helper: a successful `build` loop yields a program satisfying the
tree-wide no-null-bodies invariant, given a clean accumulator. -/
theorem buildGo_noNullBodies (fuel : Nat) :
    ∀ ts cur decls log hadError log' prog,
      noNullBodiesEntries decls = true →
      buildGo fuel ts cur decls log hadError = (log', .ok prog) →
      noNullBodies prog = true := by
  induction fuel with
  | zero =>
    intro ts cur decls log hadError log' prog hd h
    simp [buildGo] at h
  | succ n ih =>
    intro ts cur decls log hadError log' prog hd h
    rw [buildGo] at h
    split at h
    · split at h
      · simp at h
      · rw [Prod.mk.injEq] at h
        obtain ⟨h1, h2⟩ := h
        rw [Except.ok.injEq] at h2
        rw [← h2]
        exact hd
    · split at h
      · exact ih _ _ _ _ _ _ _ hd h
      · split at h
        · have hdcl := (parse_noNullBodies n).1 _ _ _ _ (by assumption)
          exact ih _ _ _ _ _ _ _ (noNullBodiesEntries_append _ _ hd hdcl) h
        · exact ih _ _ _ _ _ _ _ hd h
        · exact ih _ _ _ _ _ _ _ hd h

/-- Helper: no token the line lexer ever emits has kind IDENTIFIER or
LITERAL — the only emitted kinds are the keyword, punctuation and operator
kinds named literally in the branches, and `StringToToken` of a
single-character punctuation spelling (none of which is `"variable"` or
`"literal"`, the only spellings mapped to those kinds). -/
theorem lexLineGo_no_ident (row : Int) (fuel : Nat) :
    ∀ cs i u t, t ∈ lexLineGo row fuel cs i u →
      t.type ≠ .IDENTIFIER ∧ t.type ≠ .LITERAL := by
  induction fuel with
  | zero => intro cs i u t ht; simp [lexLineGo] at ht
  | succ n ih =>
    intro cs i u t ht
    match cs with
    | [] => simp [lexLineGo] at ht
    | c :: cs' =>
      rw [lexLineGo] at ht
      by_cases h1 : c = 'r'
      · rw [if_pos h1] at ht
        by_cases h1k0 : compareAt (c :: cs') "return" = true
        · rw [if_pos h1k0] at ht
          rcases List.mem_cons.mp ht with rfl | ht
          · exact ⟨(fun hx => nomatch hx), (fun hx => nomatch hx)⟩
          · exact ih _ _ _ _ ht
        rw [if_neg h1k0] at ht
        exact ih _ _ _ _ ht
      rw [if_neg h1] at ht
      by_cases h2 : c = 'i'
      · rw [if_pos h2] at ht
        by_cases h2k0 : compareAt (c :: cs') "if" = true
        · rw [if_pos h2k0] at ht
          rcases List.mem_cons.mp ht with rfl | ht
          · exact ⟨(fun hx => nomatch hx), (fun hx => nomatch hx)⟩
          · exact ih _ _ _ _ ht
        rw [if_neg h2k0] at ht
        by_cases h2k1 : compareAt (c :: cs') "int" = true
        · rw [if_pos h2k1] at ht
          rcases List.mem_cons.mp ht with rfl | ht
          · exact ⟨(fun hx => nomatch hx), (fun hx => nomatch hx)⟩
          · exact ih _ _ _ _ ht
        rw [if_neg h2k1] at ht
        exact ih _ _ _ _ ht
      rw [if_neg h2] at ht
      by_cases h3 : c = 'e'
      · rw [if_pos h3] at ht
        by_cases h3k0 : compareAt (c :: cs') "elif" = true
        · rw [if_pos h3k0] at ht
          rcases List.mem_cons.mp ht with rfl | ht
          · exact ⟨(fun hx => nomatch hx), (fun hx => nomatch hx)⟩
          · exact ih _ _ _ _ ht
        rw [if_neg h3k0] at ht
        by_cases h3k1 : compareAt (c :: cs') "else" = true
        · rw [if_pos h3k1] at ht
          rcases List.mem_cons.mp ht with rfl | ht
          · exact ⟨(fun hx => nomatch hx), (fun hx => nomatch hx)⟩
          · exact ih _ _ _ _ ht
        rw [if_neg h3k1] at ht
        exact ih _ _ _ _ ht
      rw [if_neg h3] at ht
      by_cases h4 : c = 'f'
      · rw [if_pos h4] at ht
        by_cases h4k0 : compareAt (c :: cs') "for" = true
        · rw [if_pos h4k0] at ht
          rcases List.mem_cons.mp ht with rfl | ht
          · exact ⟨(fun hx => nomatch hx), (fun hx => nomatch hx)⟩
          · exact ih _ _ _ _ ht
        rw [if_neg h4k0] at ht
        by_cases h4k1 : compareAt (c :: cs') "fn" = true
        · rw [if_pos h4k1] at ht
          rcases List.mem_cons.mp ht with rfl | ht
          · exact ⟨(fun hx => nomatch hx), (fun hx => nomatch hx)⟩
          · exact ih _ _ _ _ ht
        rw [if_neg h4k1] at ht
        exact ih _ _ _ _ ht
      rw [if_neg h4] at ht
      by_cases h5 : c = 'w'
      · rw [if_pos h5] at ht
        by_cases h5k0 : compareAt (c :: cs') "while" = true
        · rw [if_pos h5k0] at ht
          rcases List.mem_cons.mp ht with rfl | ht
          · exact ⟨(fun hx => nomatch hx), (fun hx => nomatch hx)⟩
          · exact ih _ _ _ _ ht
        rw [if_neg h5k0] at ht
        exact ih _ _ _ _ ht
      rw [if_neg h5] at ht
      by_cases h6 : c = 'c'
      · rw [if_pos h6] at ht
        by_cases h6k0 : compareAt (c :: cs') "continue" = true
        · rw [if_pos h6k0] at ht
          rcases List.mem_cons.mp ht with rfl | ht
          · exact ⟨(fun hx => nomatch hx), (fun hx => nomatch hx)⟩
          · exact ih _ _ _ _ ht
        rw [if_neg h6k0] at ht
        by_cases h6k1 : compareAt (c :: cs') "char" = true
        · rw [if_pos h6k1] at ht
          exact ih _ _ _ _ ht
        rw [if_neg h6k1] at ht
        exact ih _ _ _ _ ht
      rw [if_neg h6] at ht
      by_cases h7 : c = 'b'
      · rw [if_pos h7] at ht
        by_cases h7k0 : compareAt (c :: cs') "break" = true
        · rw [if_pos h7k0] at ht
          rcases List.mem_cons.mp ht with rfl | ht
          · exact ⟨(fun hx => nomatch hx), (fun hx => nomatch hx)⟩
          · exact ih _ _ _ _ ht
        rw [if_neg h7k0] at ht
        by_cases h7k1 : compareAt (c :: cs') "boolean" = true
        · rw [if_pos h7k1] at ht
          rcases List.mem_cons.mp ht with rfl | ht
          · exact ⟨(fun hx => nomatch hx), (fun hx => nomatch hx)⟩
          · exact ih _ _ _ _ ht
        rw [if_neg h7k1] at ht
        exact ih _ _ _ _ ht
      rw [if_neg h7] at ht
      by_cases h8 : c = 'd'
      · rw [if_pos h8] at ht
        by_cases h8k0 : compareAt (c :: cs') "double" = true
        · rw [if_pos h8k0] at ht
          rcases List.mem_cons.mp ht with rfl | ht
          · exact ⟨(fun hx => nomatch hx), (fun hx => nomatch hx)⟩
          · exact ih _ _ _ _ ht
        rw [if_neg h8k0] at ht
        exact ih _ _ _ _ ht
      rw [if_neg h8] at ht
      by_cases h9 : c = 's'
      · rw [if_pos h9] at ht
        by_cases h9k0 : compareAt (c :: cs') "string" = true
        · rw [if_pos h9k0] at ht
          rcases List.mem_cons.mp ht with rfl | ht
          · exact ⟨(fun hx => nomatch hx), (fun hx => nomatch hx)⟩
          · exact ih _ _ _ _ ht
        rw [if_neg h9k0] at ht
        exact ih _ _ _ _ ht
      rw [if_neg h9] at ht
      by_cases hws : c = ' ' ∨ c = '\t' ∨ c = '\n' ∨ c = '\x0d'
      · rw [if_pos hws] at ht
        exact ih _ _ _ _ ht
      rw [if_neg hws] at ht
      by_cases hsc : c ∈ ['{', '}', '(', ')', '[', ']', ';', ',', '.', '+', '*', '%', '&', '|', '~']
      · rw [if_pos hsc] at ht
        rcases List.mem_cons.mp ht with rfl | ht
        · simp only [List.mem_cons, List.not_mem_nil, or_false] at hsc
          rcases hsc with rfl | rfl | rfl | rfl | rfl | rfl | rfl | rfl | rfl | rfl | rfl | rfl | rfl | rfl | rfl <;>
            exact ⟨(fun hx => nomatch hx), (fun hx => nomatch hx)⟩
        · exact ih _ _ _ _ ht
      rw [if_neg hsc] at ht
      by_cases heq : c = '='
      · rw [if_pos heq] at ht
        by_cases heqa : nextChar cs' = '='
        · rw [if_pos heqa] at ht
          rcases List.mem_cons.mp ht with rfl | ht
          · exact ⟨(fun hx => nomatch hx), (fun hx => nomatch hx)⟩
          · exact ih _ _ _ _ ht
        rw [if_neg heqa] at ht
        rcases List.mem_cons.mp ht with rfl | ht
        · exact ⟨(fun hx => nomatch hx), (fun hx => nomatch hx)⟩
        · exact ih _ _ _ _ ht
      rw [if_neg heq] at ht
      by_cases hsub : c = '-'
      · rw [if_pos hsub] at ht
        rcases List.mem_cons.mp ht with rfl | ht
        · exact ⟨(fun hx => nomatch hx), (fun hx => nomatch hx)⟩
        · exact ih _ _ _ _ ht
      rw [if_neg hsub] at ht
      by_cases hdiv : c = '/'
      · rw [if_pos hdiv] at ht
        by_cases hdiva : nextChar cs' = '/'
        · rw [if_pos hdiva] at ht
          simp at ht
        rw [if_neg hdiva] at ht
        rcases List.mem_cons.mp ht with rfl | ht
        · exact ⟨(fun hx => nomatch hx), (fun hx => nomatch hx)⟩
        · exact ih _ _ _ _ ht
      rw [if_neg hdiv] at ht
      by_cases hlt : c = '<'
      · rw [if_pos hlt] at ht
        by_cases hlta : nextChar cs' = '='
        · rw [if_pos hlta] at ht
          rcases List.mem_cons.mp ht with rfl | ht
          · exact ⟨(fun hx => nomatch hx), (fun hx => nomatch hx)⟩
          · exact ih _ _ _ _ ht
        rw [if_neg hlta] at ht
        rcases List.mem_cons.mp ht with rfl | ht
        · exact ⟨(fun hx => nomatch hx), (fun hx => nomatch hx)⟩
        · exact ih _ _ _ _ ht
      rw [if_neg hlt] at ht
      by_cases hgt : c = '>'
      · rw [if_pos hgt] at ht
        by_cases hgta : nextChar cs' = '='
        · rw [if_pos hgta] at ht
          rcases List.mem_cons.mp ht with rfl | ht
          · exact ⟨(fun hx => nomatch hx), (fun hx => nomatch hx)⟩
          · exact ih _ _ _ _ ht
        rw [if_neg hgta] at ht
        rcases List.mem_cons.mp ht with rfl | ht
        · exact ⟨(fun hx => nomatch hx), (fun hx => nomatch hx)⟩
        · exact ih _ _ _ _ ht
      rw [if_neg hgt] at ht
      by_cases hne : c = '!'
      · rw [if_pos hne] at ht
        by_cases hnea : nextChar cs' = '='
        · rw [if_pos hnea] at ht
          rcases List.mem_cons.mp ht with rfl | ht
          · exact ⟨(fun hx => nomatch hx), (fun hx => nomatch hx)⟩
          · exact ih _ _ _ _ ht
        rw [if_neg hnea] at ht
        rcases List.mem_cons.mp ht with rfl | ht
        · exact ⟨(fun hx => nomatch hx), (fun hx => nomatch hx)⟩
        · exact ih _ _ _ _ ht
      rw [if_neg hne] at ht
      exact ih _ _ _ _ ht


/-- C1: the claim says tokenizing the one-line source `int x = 5;` produces
the five tokens [INT, IDENTIFIER "x", ASSIGN, LITERAL "5", SEMICOLON].  The
lexer as written never emits IDENTIFIER or LITERAL tokens at all — unmatched
characters land in the unused `unLexed` buffer — so this input yields only
the three tokens [INT, ASSIGN, SEMICOLON]: the first conjunct evaluates the
embedded lexer at the failing input, the second proves no input whatsoever
produces an IDENTIFIER or LITERAL token.  The claim is what the rest of the
program requires (the parser consumes IDENTIFIER and LITERAL tokens
throughout `ast.cpp`), so the lexer contradicts its own parser: a code
bug. -/
theorem c1_lexer_int_x_5 :
    lexerTokens ["int x = 5;"] =
      [⟨.INT, "int", 0, 0⟩, ⟨.ASSIGN, "=", 0, 6⟩, ⟨.SEMICOLON, ";", 0, 9⟩] ∧
    ∀ lines t, t ∈ lexerTokens lines → t.type ≠ .IDENTIFIER ∧ t.type ≠ .LITERAL := by
  constructor
  · decide
  · have hgo : ∀ ls row t, t ∈ lexLinesGo row ls →
        t.type ≠ .IDENTIFIER ∧ t.type ≠ .LITERAL := by
      intro ls
      induction ls with
      | nil => intro row t ht; simp [lexLinesGo] at ht
      | cons l ls ihl =>
        intro row t ht
        rw [lexLinesGo] at ht
        rcases List.mem_append.mp ht with ht | ht
        · exact lexLineGo_no_ident row _ _ _ _ _ ht
        · exact ihl _ _ ht
    intro lines t ht
    exact hgo lines 0 t ht

/-- C1 witness: the universal conjunct applied to the token that `+` lexes
to. -/
theorem c1_witness :
    Token.type ⟨.ADD, "+", 0, 0⟩ ≠ .IDENTIFIER ∧ Token.type ⟨.ADD, "+", 0, 0⟩ ≠ .LITERAL :=
  c1_lexer_int_x_5.2 ["+"] ⟨.ADD, "+", 0, 0⟩ (by decide)

/-- C2: for all variable references `a`, `b`, `c` (identifier lexemes other
than `true`/`false`, which the parser turns into boolean literals rather
than variables), parsing the token sequence of `a + b * c` yields
`BinaryOp(+, Variable(a), BinaryOp(*, Variable(b), Variable(c)))`: the
multiplicative level binds tighter than the additive level.  The fuel
`n + 20` covers every sufficiently large recursion bound. -/
theorem c2_mul_binds_tighter_than_add (n : Nat) (a b c : String)
    (ha : a ∉ ["true", "false"]) (hb : b ∉ ["true", "false"])
    (hc : c ∉ ["true", "false"]) :
    parseExpression (n + 20)
      [⟨.IDENTIFIER, a, 0, 0⟩, ⟨.ADD, "+", 0, 2⟩, ⟨.IDENTIFIER, b, 0, 4⟩,
       ⟨.MUL, "*", 0, 6⟩, ⟨.IDENTIFIER, c, 0, 8⟩] 0 =
      .ok (.binaryOpNode "+" (.variableNode a .INFERRED)
        (.binaryOpNode "*" (.variableNode b .INFERRED) (.variableNode c .INFERRED)), 5) := by
  simp only [List.mem_cons, List.mem_singleton, not_or, List.not_mem_nil, or_false] at ha hb hc
  obtain ⟨ha1, ha2⟩ := ha
  obtain ⟨hb1, hb2⟩ := hb
  obtain ⟨hc1, hc2⟩ := hc
  simp [parseExpression, parseAssignment, parseLogicalOr, orGo, parseLogicalAnd, andGo,
    parseEquality, eqGo, parseComparison, cmpGo, parseAddition, addGo, parseMultiplication,
    mulGo, parseUnary, parseCall, argsGo, parsePrimary, postfixGo, matchT, matchL, check,
    peek, isAtEnd, advance, previous, eofToken, ha1, ha2, hb1, hb2, hc1, hc2]

/-- C2 witness: the theorem applied at `a`, `b`, `c`. -/
theorem c2_witness :
    parseExpression 20
      [⟨.IDENTIFIER, "a", 0, 0⟩, ⟨.ADD, "+", 0, 2⟩, ⟨.IDENTIFIER, "b", 0, 4⟩,
       ⟨.MUL, "*", 0, 6⟩, ⟨.IDENTIFIER, "c", 0, 8⟩] 0 =
      .ok (.binaryOpNode "+" (.variableNode "a" .INFERRED)
        (.binaryOpNode "*" (.variableNode "b" .INFERRED)
          (.variableNode "c" .INFERRED)), 5) :=
  c2_mul_binds_tighter_than_add 0 "a" "b" "c" (by decide) (by decide) (by decide)

/-- C3: for all variable references `a`, `b`, `c` (identifier lexemes other
than `true`/`false`), parsing the token sequence of `a = b = c` yields the
right-associated `AssignOp(a, =, AssignOp(b, =, Variable(c)))`, because
`parseAssignment` recurses into itself for the right-hand side. -/
theorem c3_assignment_right_associative (n : Nat) (a b c : String)
    (ha : a ∉ ["true", "false"]) (hb : b ∉ ["true", "false"])
    (hc : c ∉ ["true", "false"]) :
    parseExpression (n + 20)
      [⟨.IDENTIFIER, a, 0, 0⟩, ⟨.ASSIGN, "=", 0, 2⟩, ⟨.IDENTIFIER, b, 0, 4⟩,
       ⟨.ASSIGN, "=", 0, 6⟩, ⟨.IDENTIFIER, c, 0, 8⟩] 0 =
      .ok (.assignOpNode a (.assignOpNode b (.variableNode c .INFERRED) "=") "=", 5) := by
  simp only [List.mem_cons, List.mem_singleton, not_or, List.not_mem_nil, or_false] at ha hb hc
  obtain ⟨ha1, ha2⟩ := ha
  obtain ⟨hb1, hb2⟩ := hb
  obtain ⟨hc1, hc2⟩ := hc
  simp [parseExpression, parseAssignment, parseLogicalOr, orGo, parseLogicalAnd, andGo,
    parseEquality, eqGo, parseComparison, cmpGo, parseAddition, addGo, parseMultiplication,
    mulGo, parseUnary, parseCall, argsGo, parsePrimary, postfixGo, matchT, matchL, check,
    peek, isAtEnd, advance, previous, eofToken, ha1, ha2, hb1, hb2, hc1, hc2]

/-- C3 witness: the theorem applied at `a`, `b`, `c`. -/
theorem c3_witness :
    parseExpression 20
      [⟨.IDENTIFIER, "a", 0, 0⟩, ⟨.ASSIGN, "=", 0, 2⟩, ⟨.IDENTIFIER, "b", 0, 4⟩,
       ⟨.ASSIGN, "=", 0, 6⟩, ⟨.IDENTIFIER, "c", 0, 8⟩] 0 =
      .ok (.assignOpNode "a" (.assignOpNode "b" (.variableNode "c" .INFERRED) "=") "=", 5) :=
  c3_assignment_right_associative 0 "a" "b" "c" (by decide) (by decide) (by decide)

/-- C4: first conjunct — whenever `parseAssignment` has parsed a left-hand
side that is not a `variableNode` and then matches an assignment operator, it
fails with the `Invalid assignment target` error — thrown where the C++
cursor sits after parsing the right-hand side — and builds no
`assignOpNode`.  Second conjunct — conversely,
whenever an assignment operator is matched and `parseAssignment` succeeds,
the left-hand side WAS a `variableNode` and the result is the `assignOpNode`
carrying its name: every assignment node built at this step has a target that
was a variable expression at parse time.  Third conjunct — concretely,
parsing the token sequence of `5 = x;` fails with exactly the
`Invalid assignment target` error. -/
theorem c4_invalid_assignment_target :
    (∀ n ts cur e c1 c2 v c3,
      parseLogicalOr n ts cur = .ok (e, c1) →
      matchL ts c1 [.ASSIGN, .ASSIGN_ADD, .ASSIGN_SUB, .ASSIGN_MUL, .ASSIGN_DIV, .ASSIGN_MOD]
        = (true, c2) →
      parseAssignment n ts c2 = .ok (v, c3) →
      isVariableNode e = false →
      parseAssignment (n + 1) ts cur = .error ("Invalid assignment target", c3)) ∧
    (∀ n ts cur e1 v c1 c2 c3,
      parseLogicalOr n ts cur = .ok (e1, c1) →
      matchL ts c1 [.ASSIGN, .ASSIGN_ADD, .ASSIGN_SUB, .ASSIGN_MUL, .ASSIGN_DIV, .ASSIGN_MOD]
        = (true, c2) →
      parseAssignment (n + 1) ts cur = .ok (v, c3) →
      ∃ name vt value, e1 = .variableNode name vt ∧
        v = .assignOpNode name value ((previous ts c2).lexme) ∧
        parseAssignment n ts c2 = .ok (value, c3)) ∧
    parseExpression 20
      [⟨.LITERAL, "5", 0, 0⟩, ⟨.ASSIGN, "=", 0, 2⟩, ⟨.IDENTIFIER, "x", 0, 4⟩,
       ⟨.SEMICOLON, ";", 0, 5⟩] 0 = .error ("Invalid assignment target", 3) := by
  refine ⟨?_, ?_, ?_⟩
  · intro n ts cur e c1 c2 v c3 h1 h2 h3 h4
    cases e <;> simp [parseAssignment, h1, h2, h3, isVariableNode] at h4 ⊢
  · intro n ts cur e1 v c1 c2 c3 h1 h2 h3
    simp only [parseAssignment, h1, h2, if_true] at h3
    match hrec : parseAssignment n ts c2 with
    | .error e => rw [hrec] at h3; simp at h3
    | .ok (value, c3') =>
      rw [hrec] at h3
      match e1 with
      | .variableNode name vt =>
        simp only [Except.ok.injEq, Prod.mk.injEq] at h3
        refine ⟨name, vt, value, rfl, h3.1.symm, ?_⟩
        rw [← h3.2]
      | .stringLiteralNode s => simp at h3
      | .intLiteralNode a => simp at h3
      | .doubleLiteralNode a => simp at h3
      | .charLiteralNode a => simp at h3
      | .booleanLiteralNode a => simp at h3
      | .unaryOpNode o a => simp at h3
      | .binaryOpNode o a b => simp at h3
      | .assignOpNode a b o => simp at h3
      | .fnCallNode a b => simp at h3
      | .importNode p => simp at h3
      | .ifNode a b c => simp at h3
      | .forNode a b c d => simp at h3
      | .whileNode a b => simp at h3
      | .returnNode a => simp at h3
      | .breakNode => simp at h3
      | .continueNode => simp at h3
      | .varDeclNode a b c => simp at h3
      | .functionNode a b c d => simp at h3
      | .bodyNode a => simp at h3
      | .programNode a => simp at h3
  · rfl

/-- C4 witness: the universal part applied to the tokens of `5 = x;`, whose
left-hand side parses to the literal 5. -/
theorem c4_witness :
    parseAssignment 20
      [⟨.LITERAL, "5", 0, 0⟩, ⟨.ASSIGN, "=", 0, 2⟩, ⟨.IDENTIFIER, "x", 0, 4⟩,
       ⟨.SEMICOLON, ";", 0, 5⟩] 0 = .error ("Invalid assignment target", 3) :=
  c4_invalid_assignment_target.1 19
    [⟨.LITERAL, "5", 0, 0⟩, ⟨.ASSIGN, "=", 0, 2⟩, ⟨.IDENTIFIER, "x", 0, 4⟩,
     ⟨.SEMICOLON, ";", 0, 5⟩] 0
    (.intLiteralNode 5) 1 2 (.variableNode "x" .INFERRED) 3
    (by rfl) (by rfl) (by rfl) (by rfl)

/-- C5: a parse error in one declaration never escapes the `build` loop —
the only error `build` can return is the single aggregate failure (or the
empty-input rejection, or the embedding's fuel marker).  Concretely:
a source with a malformed declaration, then a well-formed function, then a
second malformed declaration logs both errors in order and fails once with
the aggregate message, showing every declaration was attempted; a malformed
`if` whose throw leaves the cursor on a `fn` token — a synchronization stop
token — logs once, still parses the following function, and fails once with
the aggregate message (the catch resumes from the throw position, where the
persistent C++ cursor sits); and the bare two-token sequence `if (`, whose
throw happens at end of input, logs its single error and fails once with the
aggregate message. -/
theorem c5_build_aggregate_failure :
    (∀ fuel ts log m, build fuel ts = (log, .error m) →
      m = "Failed to build AST due to parse errors" ∨
      m = "No tokens to parse - input file may be empty" ∨ m = fuelOut) ∧
    build 30
      [⟨.IDENTIFIER, "x", 0, 0⟩, ⟨.ADD, "+", 0, 2⟩, ⟨.SEMICOLON, ";", 0, 3⟩,
       ⟨.FUNCTION, "fn", 0, 5⟩, ⟨.IDENTIFIER, "f", 0, 8⟩, ⟨.LPAREN, "(", 0, 9⟩,
       ⟨.RPAREN, ")", 0, 10⟩, ⟨.LBRACE, "\x7b", 0, 12⟩, ⟨.RBRACE, "\x7d", 0, 13⟩,
       ⟨.IDENTIFIER, "z", 0, 15⟩, ⟨.MUL, "*", 0, 17⟩, ⟨.SEMICOLON, ";", 0, 18⟩] =
      (["Parse error: Expected expression at line 0, column 3 (found ';')",
        "Parse error: Expected expression at line 0, column 18 (found ';')"],
       .error "Failed to build AST due to parse errors") ∧
    build 30
      [⟨.IF, "if", 0, 0⟩, ⟨.LPAREN, "(", 0, 3⟩, ⟨.IDENTIFIER, "a", 0, 4⟩,
       ⟨.RPAREN, ")", 0, 5⟩, ⟨.FUNCTION, "fn", 0, 7⟩, ⟨.IDENTIFIER, "f", 0, 10⟩,
       ⟨.LPAREN, "(", 0, 11⟩, ⟨.RPAREN, ")", 0, 12⟩, ⟨.LBRACE, "\x7b", 0, 14⟩,
       ⟨.RBRACE, "\x7d", 0, 15⟩] =
      (["Parse error: Expected expression at line 0, column 7 (found 'fn')"],
       .error "Failed to build AST due to parse errors") ∧
    build 30 [⟨.IF, "if", 0, 0⟩, ⟨.LPAREN, "(", 0, 3⟩] =
      (["Parse error: Expected expression at line -1, column -1 (found '')"],
       .error "Failed to build AST due to parse errors") := by
  refine ⟨?_, rfl, rfl, rfl⟩
  · intro fuel ts log m h
    rw [build] at h
    split at h
    · simp at h
      exact Or.inr (Or.inl h.2.symm)
    · rcases buildGo_error_msg fuel ts 0 [] [] false log m h with h1 | h1
      · exact Or.inl h1
      · exact Or.inr (Or.inr h1)

/-- C5 witness: the universal part applied to a token sequence whose single
declaration is malformed; `build` returns the aggregate message. -/
theorem c5_witness :
    "Failed to build AST due to parse errors" = "Failed to build AST due to parse errors" ∨
    "Failed to build AST due to parse errors" = "No tokens to parse - input file may be empty" ∨
    "Failed to build AST due to parse errors" = fuelOut :=
  c5_build_aggregate_failure.1 30
    [⟨.IDENTIFIER, "x", 0, 0⟩, ⟨.ADD, "+", 0, 2⟩, ⟨.SEMICOLON, ";", 0, 3⟩]
    ["Parse error: Expected expression at line 0, column 3 (found ';')"]
    "Failed to build AST due to parse errors" (by rfl)

/-- C6 counterexample: the claim says a character matching no dispatch rule
(such as a backtick) makes tokenization fail with an `UnexpectedCharacter`
error, aborting immediately.  The embedded lexer is a total function with no
error outcome: on the line holding a backtick and then `;` it keeps lexing
past the backtick and returns the semicolon token — no error, no abort. -/
theorem c6_counterexample :
    lexerTokens ["`;"] = [⟨.SEMICOLON, ";", 0, 1⟩] := by
  decide

/-- C6 (amended): a character matching none of the lexer's dispatch rules is
appended to the write-only `unLexed` buffer and skipped; tokenization
continues with the next character and never fails.  (The original claim's
`UnexpectedCharacter{char, row, col}` error does not exist in the lexer:
its only throw is the file-open check.) -/
theorem c6_unknown_char_skipped (row : Int) (fuel : Nat) (c : Char) (cs : List Char)
    (i : Nat) (u : String)
    (h : c ∉ ['r', 'i', 'e', 'f', 'w', 'c', 'b', 'd', 's', ' ', '\t', '\n', '\x0d',
      '{', '}', '(', ')', '[', ']', ';', ',', '.', '+', '*', '%', '&', '|', '~',
      '=', '-', '/', '<', '>', '!']) :
    lexLineGo row (fuel + 1) (c :: cs) i u = lexLineGo row fuel cs (i + 1) (u.push c) := by
  simp only [List.mem_cons, List.not_mem_nil, not_or, or_false] at h
  obtain ⟨h1, h2, h3, h4, h5, h6, h7, h8, h9, h10, h11, h12, h13, h14, h15, h16, h17, h18,
    h19, h20, h21, h22, h23, h24, h25, h26, h27, h28, h29, h30, h31, h32, h33, h34⟩ := h
  simp [lexLineGo, h1, h2, h3, h4, h5, h6, h7, h8, h9, h10, h11, h12, h13, h14, h15, h16,
    h17, h18, h19, h20, h21, h22, h23, h24, h25, h26, h27, h28, h29, h30, h31, h32, h33, h34]

/-- C6 witness: the amended theorem applied to a backtick (character 96)
followed by `;`. -/
theorem c6_witness :
    lexLineGo 0 3 [Char.ofNat 96, ';'] 0 "" =
      lexLineGo 0 2 [';'] 1 ("".push (Char.ofNat 96)) :=
  c6_unknown_char_skipped 0 2 (Char.ofNat 96) [';'] 0 "" (by decide)

/-- C7: the claim says the lexer tokenizes each of `+= -= *= /= %=` as a
single assignment-operator token.  It does not: `lexer.h` declares no
compound-assignment token kinds (the `ASSIGN_ADD` … `ASSIGN_MOD` enumerators
that `AST::parseAssignment` names do not exist in the enum, so the two files
do not even compile together), and the lexer emits `+=` as the two tokens
ADD then ASSIGN — this theorem evaluates the embedded lexer at that failing
input.  The second conjunct shows the parser half of the claim as written:
given a hypothetical `ASSIGN_ADD` token, `parseAssignment` does represent it
as an `assignOpNode` recording the operator. -/
theorem c7_compound_assignment_lexing :
    lexerTokens ["+="] = [⟨.ADD, "+", 0, 0⟩, ⟨.ASSIGN, "=", 0, 1⟩] ∧
    parseExpression 20
      [⟨.IDENTIFIER, "x", 0, 0⟩, ⟨.ASSIGN_ADD, "+=", 0, 2⟩, ⟨.LITERAL, "5", 0, 5⟩] 0 =
      .ok (.assignOpNode "x" (.intLiteralNode 5) "+=", 3) := by
  exact ⟨by decide, rfl⟩

/-- Inversion for `consume`: a success advanced the cursor exactly one past
a token of the required kind (so `check` held at the pre-call cursor). -/
theorem consume_ok_inv (ts : List Token) (cur : Nat) (t : TokenType) (msg : String)
    (tok : Token) (cur1 : Nat) (h : consume ts cur t msg = .ok (tok, cur1)) :
    cur1 = cur + 1 ∧ check ts cur t = true := by
  rw [consume] at h
  split at h
  · rename_i hc
    refine ⟨?_, hc⟩
    have hend : isAtEnd ts cur = false := by
      by_contra hx
      simp only [Bool.not_eq_false] at hx
      rw [check, if_pos hx] at hc
      exact Bool.false_ne_true hc
    rw [advance, if_neg (by simp [hend])] at h
    simp only [Except.ok.injEq, Prod.mk.injEq] at h
    exact h.2.symm
  · simp at h

/-- C8: `parseWhileStatement` and `parseForStatement` require and consume a
trailing `;` after the loop body.  Universally: (1)/(2) EVERY successful
while/for parse ends with the cursor immediately past a SEMICOLON token —
the final `consume(SEMICOLON, ...)` — whatever the tokens, position, body
and clauses; (3)/(4) whenever the while (resp. for, here with empty
clauses) pipeline — `(`, condition, `)`, brace body — has succeeded but the
token after the body is not a semicolon, the parse fails, the error
positioned at that token; (5) an `if` statement, by contrast, consumes
nothing after its then-branch: with no `else` following, it succeeds with
the cursor exactly where the branch ended, no trailing semicolon required
or consumed.  The final conjuncts evaluate concrete loops with and without
the trailing semicolon, and an `if` with brace branches. -/
theorem c8_loop_trailing_semicolon :
    (∀ n ts cur r c, parseWhileStatement n ts cur = .ok (r, c) →
      1 ≤ c ∧ check ts (c - 1) .SEMICOLON = true) ∧
    (∀ n ts cur r c, parseForStatement n ts cur = .ok (r, c) →
      1 ≤ c ∧ check ts (c - 1) .SEMICOLON = true) ∧
    (∀ n ts cur t1 c1 cond c2 t2 c3 body c4,
      consume ts cur .LPAREN "Expected '(' after 'while'" = .ok (t1, c1) →
      parseExpression n ts c1 = .ok (cond, c2) →
      consume ts c2 .RPAREN "Expected ')' after condition" = .ok (t2, c3) →
      parseBody n ts c3 = .ok (body, c4) →
      check ts c4 .SEMICOLON = false →
      ∃ msg, parseWhileStatement (n + 1) ts cur = .error (msg, c4)) ∧
    (∀ n ts cur t1 c1 t2 c2 t3 c3 body c4,
      consume ts cur .LPAREN "Expected '(' after 'for'" = .ok (t1, c1) →
      check ts c1 .SEMICOLON = true →
      consume ts (c1 + 1) .SEMICOLON "Expected ';' after for condition" = .ok (t2, c2) →
      check ts c2 .RPAREN = true →
      consume ts c2 .RPAREN "Expected ')' after for clauses" = .ok (t3, c3) →
      parseBody n ts c3 = .ok (body, c4) →
      check ts c4 .SEMICOLON = false →
      ∃ msg, parseForStatement (n + 1) ts cur = .error (msg, c4)) ∧
    (∀ n ts cur t1 c1 cond c2 t2 c3 thenB c4,
      consume ts cur .LPAREN "Expected '(' after 'if'" = .ok (t1, c1) →
      parseExpression n ts c1 = .ok (cond, c2) →
      consume ts c2 .RPAREN "Expected ')' after condition" = .ok (t2, c3) →
      parseStatement n ts c3 = .ok (thenB, c4) →
      check ts c4 .ELSE = false →
      parseIfStatement (n + 1) ts cur = .ok (.ifNode cond thenB none, c4)) ∧
    parseStatement 30
      [⟨.WHILE, "while", 0, 0⟩, ⟨.LPAREN, "(", 0, 6⟩, ⟨.IDENTIFIER, "a", 0, 7⟩,
       ⟨.RPAREN, ")", 0, 8⟩, ⟨.LBRACE, "\x7b", 0, 10⟩, ⟨.RBRACE, "\x7d", 0, 11⟩] 0 =
      .error ("Expected ';' after while body (found '')", 6) ∧
    parseStatement 30
      [⟨.WHILE, "while", 0, 0⟩, ⟨.LPAREN, "(", 0, 6⟩, ⟨.IDENTIFIER, "a", 0, 7⟩,
       ⟨.RPAREN, ")", 0, 8⟩, ⟨.LBRACE, "\x7b", 0, 10⟩, ⟨.RBRACE, "\x7d", 0, 11⟩,
       ⟨.SEMICOLON, ";", 0, 12⟩] 0 =
      .ok (.whileNode (.variableNode "a" .INFERRED) (.bodyNode []), 7) ∧
    parseStatement 30
      [⟨.FOR, "for", 0, 0⟩, ⟨.LPAREN, "(", 0, 4⟩, ⟨.SEMICOLON, ";", 0, 5⟩,
       ⟨.SEMICOLON, ";", 0, 6⟩, ⟨.RPAREN, ")", 0, 7⟩, ⟨.LBRACE, "\x7b", 0, 9⟩,
       ⟨.RBRACE, "\x7d", 0, 10⟩] 0 =
      .error ("Expected ';' after for body (found '')", 7) ∧
    parseStatement 30
      [⟨.FOR, "for", 0, 0⟩, ⟨.LPAREN, "(", 0, 4⟩, ⟨.SEMICOLON, ";", 0, 5⟩,
       ⟨.SEMICOLON, ";", 0, 6⟩, ⟨.RPAREN, ")", 0, 7⟩, ⟨.LBRACE, "\x7b", 0, 9⟩,
       ⟨.RBRACE, "\x7d", 0, 10⟩, ⟨.SEMICOLON, ";", 0, 11⟩] 0 =
      .ok (.forNode none none none (.bodyNode []), 8) ∧
    parseStatement 30
      [⟨.IF, "if", 0, 0⟩, ⟨.LPAREN, "(", 0, 3⟩, ⟨.IDENTIFIER, "a", 0, 4⟩,
       ⟨.RPAREN, ")", 0, 5⟩, ⟨.LBRACE, "\x7b", 0, 7⟩, ⟨.RBRACE, "\x7d", 0, 8⟩] 0 =
      .ok (.ifNode (.variableNode "a" .INFERRED) (.bodyNode []) none, 6) := by
  refine ⟨?_, ?_, ?_, ?_, ?_, rfl, rfl, rfl, rfl, rfl⟩
  · intro n ts cur r c h
    cases n with
    | zero => simp [parseWhileStatement] at h
    | succ n =>
      rw [parseWhileStatement] at h
      try dsimp only at h
      repeat' split at h
      all_goals try simp only [reduceCtorEq] at h
      all_goals (
        simp only [Except.ok.injEq, Prod.mk.injEq] at h
        obtain ⟨hr, hc⟩ := h
        obtain ⟨h1, h2⟩ := consume_ok_inv _ _ _ _ _ _ (by assumption)
        refine ⟨by omega, ?_⟩
        rw [← hc, h1]
        simpa using h2)
  · intro n ts cur r c h
    cases n with
    | zero => simp [parseForStatement] at h
    | succ n =>
      rw [parseForStatement] at h
      try dsimp only at h
      repeat' split at h
      all_goals try simp only [reduceCtorEq] at h
      all_goals (
        simp only [Except.ok.injEq, Prod.mk.injEq] at h
        obtain ⟨hr, hc⟩ := h
        obtain ⟨h1, h2⟩ := consume_ok_inv _ _ _ _ _ _ (by assumption)
        refine ⟨by omega, ?_⟩
        rw [← hc, h1]
        simpa using h2)
  · intro n ts cur t1 c1 cond c2 t2 c3 body c4 h1 h2 h3 h4 h5
    have hm : consume ts c4 .SEMICOLON "Expected ';' after while body" =
        .error ("Expected ';' after while body" ++
          (if (peek ts c4).line ≥ 0 then
            " at line " ++ toString (peek ts c4).line ++ ", column " ++
              toString (peek ts c4).column
          else "") ++ " (found '" ++ (peek ts c4).lexme ++ "')", c4) := by
      rw [consume, if_neg (by simp [h5])]
    refine ⟨("Expected ';' after while body" ++
      (if (peek ts c4).line ≥ 0 then
        " at line " ++ toString (peek ts c4).line ++ ", column " ++
          toString (peek ts c4).column
      else "") ++ " (found '" ++ (peek ts c4).lexme ++ "')"), ?_⟩
    simp only [parseWhileStatement, h1, h2, h3, h4, hm]
  · intro n ts cur t1 c1 t2 c2 t3 c3 body c4 h1 hs1 h2 hrp h3 h4 h5
    have hs2 : check ts (c1 + 1) .SEMICOLON = true := (consume_ok_inv _ _ _ _ _ _ h2).2
    have hm : consume ts c4 .SEMICOLON "Expected ';' after for body" =
        .error ("Expected ';' after for body" ++
          (if (peek ts c4).line ≥ 0 then
            " at line " ++ toString (peek ts c4).line ++ ", column " ++
              toString (peek ts c4).column
          else "") ++ " (found '" ++ (peek ts c4).lexme ++ "')", c4) := by
      rw [consume, if_neg (by simp [h5])]
    refine ⟨("Expected ';' after for body" ++
      (if (peek ts c4).line ≥ 0 then
        " at line " ++ toString (peek ts c4).line ++ ", column " ++
          toString (peek ts c4).column
      else "") ++ " (found '" ++ (peek ts c4).lexme ++ "')"), ?_⟩
    simp only [parseForStatement, matchT, h1, hs1, hs2, h2, hrp, h3, h4, hm,
      Bool.not_true, Bool.not_false, Bool.false_eq_true, Bool.true_eq_false, reduceIte]
  · intro n ts cur t1 c1 cond c2 t2 c3 thenB c4 h1 h2 h3 h4 h5
    simp only [parseIfStatement, matchT, h1, h2, h3, h4, h5,
      Bool.false_eq_true, Bool.true_eq_false, reduceIte]

/-- C8 witness: the universal conjuncts applied concretely — the successful
seven-token while run ends with its cursor just past the semicolon; the
same while without the semicolon fails at the token after its body; an
`if` with brace branches and no `else` succeeds exactly where its
then-branch ended. -/
theorem c8_witness :
    (1 ≤ 7 ∧ check
      [⟨.WHILE, "while", 0, 0⟩, ⟨.LPAREN, "(", 0, 6⟩, ⟨.IDENTIFIER, "a", 0, 7⟩,
       ⟨.RPAREN, ")", 0, 8⟩, ⟨.LBRACE, "\x7b", 0, 10⟩, ⟨.RBRACE, "\x7d", 0, 11⟩,
       ⟨.SEMICOLON, ";", 0, 12⟩] (7 - 1) .SEMICOLON = true) ∧
    (∃ msg, parseWhileStatement 29
      [⟨.WHILE, "while", 0, 0⟩, ⟨.LPAREN, "(", 0, 6⟩, ⟨.IDENTIFIER, "a", 0, 7⟩,
       ⟨.RPAREN, ")", 0, 8⟩, ⟨.LBRACE, "\x7b", 0, 10⟩, ⟨.RBRACE, "\x7d", 0, 11⟩] 1 =
      .error (msg, 6)) ∧
    parseIfStatement 29
      [⟨.IF, "if", 0, 0⟩, ⟨.LPAREN, "(", 0, 3⟩, ⟨.IDENTIFIER, "a", 0, 4⟩,
       ⟨.RPAREN, ")", 0, 5⟩, ⟨.LBRACE, "\x7b", 0, 7⟩, ⟨.RBRACE, "\x7d", 0, 8⟩] 1 =
      .ok (.ifNode (.variableNode "a" .INFERRED) (.bodyNode []) none, 6) :=
  ⟨c8_loop_trailing_semicolon.1 30
      [⟨.WHILE, "while", 0, 0⟩, ⟨.LPAREN, "(", 0, 6⟩, ⟨.IDENTIFIER, "a", 0, 7⟩,
       ⟨.RPAREN, ")", 0, 8⟩, ⟨.LBRACE, "\x7b", 0, 10⟩, ⟨.RBRACE, "\x7d", 0, 11⟩,
       ⟨.SEMICOLON, ";", 0, 12⟩] 1
      (.whileNode (.variableNode "a" .INFERRED) (.bodyNode [])) 7 (by rfl),
   c8_loop_trailing_semicolon.2.2.1 28
      [⟨.WHILE, "while", 0, 0⟩, ⟨.LPAREN, "(", 0, 6⟩, ⟨.IDENTIFIER, "a", 0, 7⟩,
       ⟨.RPAREN, ")", 0, 8⟩, ⟨.LBRACE, "\x7b", 0, 10⟩, ⟨.RBRACE, "\x7d", 0, 11⟩] 1
      ⟨.LPAREN, "(", 0, 6⟩ 2 (.variableNode "a" .INFERRED) 3 ⟨.RPAREN, ")", 0, 8⟩ 4
      (.bodyNode []) 6 (by rfl) (by rfl) (by rfl) (by rfl) (by rfl),
   c8_loop_trailing_semicolon.2.2.2.2.1 28
      [⟨.IF, "if", 0, 0⟩, ⟨.LPAREN, "(", 0, 3⟩, ⟨.IDENTIFIER, "a", 0, 4⟩,
       ⟨.RPAREN, ")", 0, 5⟩, ⟨.LBRACE, "\x7b", 0, 7⟩, ⟨.RBRACE, "\x7d", 0, 8⟩] 1
      ⟨.LPAREN, "(", 0, 3⟩ 2 (.variableNode "a" .INFERRED) 3 ⟨.RPAREN, ")", 0, 5⟩ 4
      (.bodyNode []) 6 (by rfl) (by rfl) (by rfl) (by rfl) (by rfl)⟩

/-- C9: the cursor primitives never read outside the token sequence: `peek`
at or past the end returns the synthetic end-of-stream token
(kind UNKNOWN, line -1, column -1), `advance` at the end leaves the cursor
unchanged (returning `previous()`), and `previous` at position 0 returns the
first token — or the same dummy on an empty sequence — so lookahead is
always safe. -/
theorem c9_cursor_primitives_safe (ts : List Token) (cur : Nat) :
    (ts.length ≤ cur → peek ts cur = eofToken) ∧
    (ts.length ≤ cur → advance ts cur = (previous ts cur, cur)) ∧
    previous ts 0 = ts.headD eofToken := by
  refine ⟨fun h => ?_, fun h => ?_, ?_⟩
  · simp [peek, isAtEnd, h]
  · simp [advance, isAtEnd, h]
  · cases ts <;> rfl

/-- C9 witness: the theorem applied to the empty token sequence at
position 0. -/
theorem c9_witness :
    peek [] 0 = eofToken ∧ advance [] 0 = (previous [] 0, 0) ∧
    previous [] 0 = ([] : List Token).headD eofToken :=
  ⟨(c9_cursor_primitives_safe [] 0).1 (by decide),
   (c9_cursor_primitives_safe [] 0).2.1 (by decide),
   (c9_cursor_primitives_safe [] 0).2.2⟩

/-- C10: in every successfully built AST the root's declarations list holds
no null entries, every statement list returned by `parseBody` holds no null
entries, and — tree-wide — every successfully built program satisfies
`noNullBodies`: no `bodyNode` or `programNode` anywhere in the tree holds a
null entry.  `parseDeclaration` may return null (stray `;`/`}`), but both
the `build` loop and `parseBody` push only non-null nodes. -/
theorem c10_no_null_children :
    (∀ fuel ts log prog, build fuel ts = (log, .ok prog) →
      ∃ ds, prog = .programNode ds ∧ ∀ x ∈ ds, x.isSome) ∧
    (∀ fuel ts cur b cur', parseBody fuel ts cur = .ok (b, cur') →
      ∃ stmts, b = .bodyNode stmts ∧ ∀ x ∈ stmts, x.isSome) ∧
    (∀ fuel ts log prog, build fuel ts = (log, .ok prog) →
      noNullBodies prog = true) := by
  refine ⟨?_, ?_, ?_⟩
  · intro fuel ts log prog h
    rw [build] at h
    split at h
    · simp at h
    · exact buildGo_isSome fuel ts 0 [] [] false log prog (by simp) h
  · intro fuel ts cur b cur' h
    match fuel with
    | 0 => simp [parseBody] at h
    | n + 1 =>
      rw [parseBody] at h
      split at h
      · simp at h
      · split at h
        · simp at h
        · split at h
          · simp at h
          · rw [Except.ok.injEq, Prod.mk.injEq] at h
            obtain ⟨hb, _⟩ := h
            exact ⟨_, hb.symm, bodyGo_isSome n ts _ [] _ _ (by simp) (by assumption)⟩
  · intro fuel ts log prog h
    rw [build] at h
    split at h
    · simp at h
    · exact buildGo_noNullBodies fuel ts 0 [] [] false log prog rfl h

/-- C10 witness: the first part applied to the build of a lone stray
semicolon (an empty program), the second to an empty brace body, the third
to the same empty program. -/
theorem c10_witness :
    (∃ ds, astNode.programNode [] = .programNode ds ∧ ∀ x ∈ ds, x.isSome) ∧
    (∃ stmts, astNode.bodyNode [] = .bodyNode stmts ∧ ∀ x ∈ stmts, x.isSome) ∧
    noNullBodies (astNode.programNode []) = true :=
  ⟨c10_no_null_children.1 10 [⟨.SEMICOLON, ";", 0, 0⟩] [] (.programNode []) (by rfl),
   c10_no_null_children.2.1 10 [⟨.LBRACE, "\x7b", 0, 0⟩, ⟨.RBRACE, "\x7d", 0, 1⟩] 0
     (.bodyNode []) 2 (by rfl),
   c10_no_null_children.2.2 10 [⟨.SEMICOLON, ";", 0, 0⟩] [] (.programNode []) (by rfl)⟩

end Qur
